import Mathlib

/-!
Verification development for the mocito C mocking library (src/mocito.c).

The development is a shallow embedding of the core of the library:
the tagged value representation, the matcher/responder closures, the
registry of mocked functions (moc_given_nnn) and the dispatch engine
(moc_act_n).  Definitions are translated from the C source; names follow
the source where Lean allows it.

Modelling conventions:
- A type tag (C `moc_type`, an unsigned char `kind*4 + indirection`) is a
  `Nat`; the standard type is `type / 4` and the pointer type `type % 4`,
  mirroring the macros MOC_STDTYPE and MOC_PTRTYPE.
- The raw 8-byte storage of a `moc_value` is modelled by `MocData`: an
  integer payload for the eleven integer kinds (the per-width casts of
  the C accessors are collapsed to one mathematical integer, since every
  code path compares or copies a value through accessors of the kind its
  own tag names), a rational payload for the two floating kinds (native
  float equality/order is modelled by equality/order of rationals),
  and abstract addresses (`Nat`) for data pointers and function pointers,
  compared by identity exactly as the C compares raw pointers.
- The matcher/responder operation pointers stored in the C unions are
  modelled by closed enumerations of the operation functions that the
  library itself defines (moc_cmpeq .. moc_cmpge, moc_mtctrue for the
  matchers; moc_rsprt and moc_rspinc for the responders).  Pointer
  equality on them is constructor equality.  User supplied operation
  functions (moc_mparam / moc_rparam / moc_xcall with a function of the
  client) are outside the model; the whole-call matcher branch of the
  dispatch loop is therefore unreachable for states built from the
  predefined constructors and is mapped to a failing match.
- The process memory reachable through mutable pointers (written by the
  predefined responder moc_rspinc) is a function `Nat → Int`; the C
  increment `(*p)++` is modelled as `+ 1` on the cell (machine wrap-around
  at the extremes of a width is not modelled; no claim depends on it).
- The error handler is modelled as a handler that records the error and
  returns control: every operation returns the list of errors it reported,
  in order, next to its result.  The C last-error record is the last
  element of that list.
-/

/-- Comparison operation selector, from `enum moc_op` of the source. -/
inductive MocOp where
  | eq | ne | lt | le | gt | ge
deriving DecidableEq, Repr

/-- Parameter-matcher operation functions defined by the library itself:
`moc_cmpeq` .. `moc_cmpge` (as `cmpop` applied to the operation) and
`moc_mtctrue`.  Equality of constructors models C function-pointer
equality of the corresponding functions. -/
inductive MtcPrmFn where
  | cmpop (op : MocOp)
  | mtctrue
deriving DecidableEq, Repr

/-- Responder operation functions defined by the library itself:
`moc_rsprt` (used by `moc_return`) and `moc_rspinc` (used by `moc_count`). -/
inductive RspFn where
  | rsprt
  | rspinc
deriving DecidableEq, Repr

/-- Model of the raw 8-byte storage of a `struct moc_value`. -/
inductive MocData where
  | dNone
  | dInt (n : Int)
  | dRat (q : Rat)
  | dAddr (a : Nat)
  | dFn (a : Nat)
deriving DecidableEq, Repr

/-- Model of `struct moc_value`: the type tag byte and the stored datum. -/
structure MocValue where
  type : Nat
  data : MocData
deriving DecidableEq, Repr

/-- Model of `moc_emptyval`, the statically zero-initialized empty value:
its tag byte is 0 (kind void, direct indirection) and it holds no datum. -/
def moc_emptyval : MocValue := ⟨0, .dNone⟩

instance : Inhabited MocValue := ⟨moc_emptyval⟩

/-- Model of `moc_void`: returns the empty value. -/
def moc_void : MocValue := moc_emptyval

/- Type tag constructors (`moc_type_*`), from MOC_TYPES2BYTE(stdtype, ptrtype)
 = stdtype * 4 + ptrtype with MOC_VOID=0, MOC_CHR=1, MOC_SHR=2, MOC_INT=3,
 MOC_LNG=4, MOC_FLT=5, MOC_DBL=6, MOC_SCHR=7, MOC_UCHR=8, MOC_USHR=9,
 MOC_UINT=10, MOC_ULNG=11, MOC_FUN=12 and MOC_NOPTR=0, MOC_PTR=1, MOC_CPTR=2. -/

def moc_type_void : Nat := 0
def moc_type_c : Nat := 4
def moc_type_s : Nat := 8
def moc_type_i : Nat := 12
def moc_type_l : Nat := 16
def moc_type_f : Nat := 20
def moc_type_d : Nat := 24
def moc_type_sc : Nat := 28
def moc_type_uc : Nat := 32
def moc_type_us : Nat := 36
def moc_type_ui : Nat := 40
def moc_type_ul : Nat := 44
def moc_type_fn : Nat := 48
def moc_type_p : Nat := 1
def moc_type_p_i : Nat := 13
def moc_type_cp_i : Nat := 14

/- Value constructors (`moc_c` .. `moc_fn`, `moc_p_*`, `moc_cp_*`): each
stores its primitive in the raw storage and sets the tag byte. -/

def moc_c (n : Int) : MocValue := ⟨moc_type_c, .dInt n⟩
def moc_s (n : Int) : MocValue := ⟨moc_type_s, .dInt n⟩
def moc_i (n : Int) : MocValue := ⟨moc_type_i, .dInt n⟩
def moc_l (n : Int) : MocValue := ⟨moc_type_l, .dInt n⟩
def moc_f (q : Rat) : MocValue := ⟨moc_type_f, .dRat q⟩
def moc_d (q : Rat) : MocValue := ⟨moc_type_d, .dRat q⟩
def moc_sc (n : Int) : MocValue := ⟨moc_type_sc, .dInt n⟩
def moc_uc (n : Int) : MocValue := ⟨moc_type_uc, .dInt n⟩
def moc_us (n : Int) : MocValue := ⟨moc_type_us, .dInt n⟩
def moc_ui (n : Int) : MocValue := ⟨moc_type_ui, .dInt n⟩
def moc_ul (n : Int) : MocValue := ⟨moc_type_ul, .dInt n⟩
def moc_fnv (a : Nat) : MocValue := ⟨moc_type_fn, .dFn a⟩
def moc_p (a : Nat) : MocValue := ⟨moc_type_p, .dAddr a⟩
def moc_p_i (a : Nat) : MocValue := ⟨moc_type_p_i, .dAddr a⟩
def moc_cp_i (a : Nat) : MocValue := ⟨moc_type_cp_i, .dAddr a⟩

/- Accessors: the C accessors reinterpret the raw storage at the width of
their kind; the model reads the stored payload of the matching shape and
returns a default on a shape mismatch (a mismatch never occurs on values
built by the constructors above, which is the only way the library itself
builds values). -/

/-- Model of the integer-kind accessors `moc_get_c` .. `moc_get_ul`. -/
def moc_get_int (v : MocValue) : Int :=
  match v.data with
  | .dInt n => n
  | _ => 0

/-- Model of the floating-kind accessors `moc_get_f` and `moc_get_d`. -/
def moc_get_rat (v : MocValue) : Rat :=
  match v.data with
  | .dRat q => q
  | _ => 0

/-- Model of the pointer accessors `moc_get_p` / MOC_GET_CP: the stored
address, compared by raw identity. -/
def moc_get_p (v : MocValue) : Nat :=
  match v.data with
  | .dAddr a => a
  | _ => 0

/-- Model of `moc_get_fn`: the stored function address. -/
def moc_get_fn (v : MocValue) : Nat :=
  match v.data with
  | .dFn a => a
  | _ => 0

/-- Switch of `moc_values_eq` on the standard type of two direct values
with equal tags (src/mocito.c lines 1148-1174): one case per kind, each
comparing through the accessors of that kind, with the default case
(which covers the void kind) returning false. -/
def moc_values_eq_std (stdtype : Nat) (v1 v2 : MocValue) : Bool :=
  match stdtype with
  | 1 => moc_get_int v1 == moc_get_int v2
  | 2 => moc_get_int v1 == moc_get_int v2
  | 3 => moc_get_int v1 == moc_get_int v2
  | 4 => moc_get_int v1 == moc_get_int v2
  | 5 => decide (moc_get_rat v1 = moc_get_rat v2)
  | 6 => decide (moc_get_rat v1 = moc_get_rat v2)
  | 7 => moc_get_int v1 == moc_get_int v2
  | 8 => moc_get_int v1 == moc_get_int v2
  | 9 => moc_get_int v1 == moc_get_int v2
  | 10 => moc_get_int v1 == moc_get_int v2
  | 11 => moc_get_int v1 == moc_get_int v2
  | 12 => moc_get_fn v1 == moc_get_fn v2
  | _ => false

/-- Model of `moc_values_eq` (src/mocito.c lines 1140-1177): true when the
tag bytes are equal and, for a non-direct indirection, the stored addresses
are identical, while for the direct indirection the switch on the standard
type compares the primitives. -/
def moc_values_eq (v1 v2 : MocValue) : Bool :=
  if v1.type == v2.type then
    if v1.type % 4 != 0 then
      moc_get_p v1 == moc_get_p v2
    else
      moc_values_eq_std (v1.type / 4) v1 v2
  else false

/-- Model of `moc_isvalidtype`: the standard type is between void (0) and
function (12) and the pointer type between direct (0) and const pointer (2). -/
def moc_isvalidtype (type : Nat) : Bool :=
  decide (type / 4 ≤ 12) && decide (type % 4 ≤ 2)

/- Comparison operations (`moc_cmpc` .. `moc_cmpfn`, MOC_SWITCHOP): each
applies the selected relation to the two primitives of its kind. -/

/-- Model of MOC_SWITCHOP on integers. -/
def moc_swopint (v1 v2 : Int) : MocOp → Bool
  | .eq => v1 == v2
  | .ne => v1 != v2
  | .lt => decide (v1 < v2)
  | .le => decide (v1 ≤ v2)
  | .gt => decide (v1 > v2)
  | .ge => decide (v1 ≥ v2)

/-- Model of MOC_SWITCHOP on the floating kinds. -/
def moc_swoprat (v1 v2 : Rat) : MocOp → Bool
  | .eq => decide (v1 = v2)
  | .ne => decide (v1 ≠ v2)
  | .lt => decide (v1 < v2)
  | .le => decide (v1 ≤ v2)
  | .gt => decide (v1 > v2)
  | .ge => decide (v1 ≥ v2)

/-- Model of `moc_cmpp`: MOC_SWITCHOP on raw addresses. -/
def moc_cmpp (v1 v2 : Nat) : MocOp → Bool
  | .eq => v1 == v2
  | .ne => v1 != v2
  | .lt => decide (v1 < v2)
  | .le => decide (v1 ≤ v2)
  | .gt => decide (v1 > v2)
  | .ge => decide (v1 ≥ v2)

/-- Model of `moc_cmpfn`: only equality and inequality are defined for
function pointers, every other operation returns false. -/
def moc_cmpfn (v1 v2 : Nat) : MocOp → Bool
  | .eq => v1 == v2
  | .ne => v1 != v2
  | _ => false

/-- Model of `moc_cmpop` (src/mocito.c lines 1260-1298): dispatches the
comparison on the pointer type and then on the standard type of the first
value; unreachable combinations return false as in the source. -/
def moc_cmpop (val1 val2 : MocValue) (op : MocOp) : Bool :=
  if val1.type % 4 != 0 then
    if val1.type % 4 == 1 || val1.type % 4 == 2 then
      moc_cmpp (moc_get_p val1) (moc_get_p val2) op
    else false
  else
    match val1.type / 4 with
    | 1 => moc_swopint (moc_get_int val1) (moc_get_int val2) op
    | 2 => moc_swopint (moc_get_int val1) (moc_get_int val2) op
    | 3 => moc_swopint (moc_get_int val1) (moc_get_int val2) op
    | 4 => moc_swopint (moc_get_int val1) (moc_get_int val2) op
    | 5 => moc_swoprat (moc_get_rat val1) (moc_get_rat val2) op
    | 6 => moc_swoprat (moc_get_rat val1) (moc_get_rat val2) op
    | 7 => moc_swopint (moc_get_int val1) (moc_get_int val2) op
    | 8 => moc_swopint (moc_get_int val1) (moc_get_int val2) op
    | 9 => moc_swopint (moc_get_int val1) (moc_get_int val2) op
    | 10 => moc_swopint (moc_get_int val1) (moc_get_int val2) op
    | 11 => moc_swopint (moc_get_int val1) (moc_get_int val2) op
    | 12 => moc_cmpfn (moc_get_fn val1) (moc_get_fn val2) op
    | _ => false

/-- Application of a parameter-matcher operation function to a call
parameter and the stored value of the matcher: `moc_cmpeq` .. `moc_cmpge`
are `moc_cmpop` at the fixed operation; `moc_mtctrue` always returns true. -/
def moc_mtcapply (fn : MtcPrmFn) (param data : MocValue) : Bool :=
  match fn with
  | .cmpop op => moc_cmpop param data op
  | .mtctrue => true

/-- Model of `struct moc_matcher` (internal view `moc_imatcher`): the
stored value, the operation function and the options byte. -/
structure Matcher where
  mval : MocValue
  mtcfn : MtcPrmFn
  mopts : Nat
deriving DecidableEq, Repr

/-- Model of `moc_emptymtc`, used only as an out-of-range read default. -/
def moc_emptymtc : Matcher := ⟨moc_emptyval, .mtctrue, 0⟩

instance : Inhabited Matcher := ⟨moc_emptymtc⟩

/-- Model of MOC_MAXPARAMS. -/
def MOC_MAXPARAMS : Nat := 127

/-- Model of `moc_mparam`: an ordinary matcher with type checking
(options byte 0). -/
def moc_mparam (fn : MtcPrmFn) (value : MocValue) : Matcher :=
  ⟨value, fn, 0⟩

/-- Model of `moc_mparam_nochk`: an ordinary matcher without type
checking (options byte 128). -/
def moc_mparam_nochk (fn : MtcPrmFn) (value : MocValue) : Matcher :=
  ⟨value, fn, 128⟩

/-- Model of `moc_xparam`: an extra matcher with type checking whose
options byte stores the referenced parameter number, clamped to
MOC_MAXPARAMS when out of the range 1..126. -/
def moc_xparam (nparam : Int) (fn : MtcPrmFn) (value : MocValue) : Matcher :=
  ⟨value, fn, if nparam ≤ 0 || nparam ≥ 127 then MOC_MAXPARAMS else nparam.toNat⟩

/-- Model of `moc_xparam_nochk`: an extra matcher without type checking
whose options byte stores 128 plus the referenced parameter number,
clamped to MOC_MAXPARAMS when out of the range 1..126. -/
def moc_xparam_nochk (nparam : Int) (fn : MtcPrmFn) (value : MocValue) : Matcher :=
  ⟨value, fn, if nparam ≤ 0 || nparam ≥ 127 then MOC_MAXPARAMS else 128 + nparam.toNat⟩

/- Predefined matcher constructors used by the claims. -/

def moc_eq (value : MocValue) : Matcher := moc_mparam (.cmpop .eq) value
def moc_ne (value : MocValue) : Matcher := moc_mparam (.cmpop .ne) value
def moc_lt (value : MocValue) : Matcher := moc_mparam (.cmpop .lt) value
def moc_le (value : MocValue) : Matcher := moc_mparam (.cmpop .le) value
def moc_gt (value : MocValue) : Matcher := moc_mparam (.cmpop .gt) value
def moc_ge (value : MocValue) : Matcher := moc_mparam (.cmpop .ge) value

/-- Model of `moc_any`: the untyped wildcard, `moc_mparam_nochk` of
`moc_mtctrue` and the empty value. -/
def moc_any : Matcher := moc_mparam_nochk .mtctrue moc_emptyval

/-- Model of `moc_any_i`: the typed int wildcard. -/
def moc_any_i : Matcher := moc_mparam .mtctrue (moc_i 0)

/-- Model of `struct moc_responder` (internal view `moc_iresponder`). -/
structure Responder where
  rval : MocValue
  rspfn : RspFn
  ropts : Nat
deriving DecidableEq, Repr

/-- Model of `moc_emptyrsp`, used only as an out-of-range read default. -/
def moc_emptyrsp : Responder := ⟨moc_emptyval, .rsprt, 0⟩

instance : Inhabited Responder := ⟨moc_emptyrsp⟩

/-- Model of `moc_rcall`: a whole-call responder (options byte 255). -/
def moc_rcall (fn : RspFn) (val : MocValue) : Responder :=
  ⟨val, fn, 128 + MOC_MAXPARAMS⟩

/-- Model of `moc_return`: a whole-call responder with `moc_rsprt`,
returning the stored value. -/
def moc_return (val : MocValue) : Responder := moc_rcall .rsprt val

/-- Model of `moc_count`: a whole-call responder with `moc_rspinc`,
incrementing the primitive behind the stored pointer value. -/
def moc_count (ptr : MocValue) : Responder := moc_rcall .rspinc ptr

/-- Model of the process memory reachable through mutable pointers: the
integer primitive stored at every address. -/
def Mem : Type := Nat → Int

/-- Model of the memory effect of `moc_rspinc` (src/mocito.c lines
1706-1726): when the stored value has the mutable-pointer indirection
(pointer type 1) and one of the eleven numeric standard types 1..11
(char .. unsigned long), the primitive at the stored address is
incremented; every other stored value leaves memory untouched. -/
def moc_rspinc_mem (val : MocValue) (mem : Mem) : Mem :=
  if val.type % 4 == 1 then
    if 1 ≤ val.type / 4 && val.type / 4 ≤ 11 then
      fun x => if x = moc_get_p val then mem x + 1 else mem x
    else mem
  else mem

/-- Result value of one responder operation function: `moc_rsprt` returns
the stored value, `moc_rspinc` returns the empty value.  Both predefined
responder functions ignore the call (or parameter) argument that the
dispatch engine hands them, so the result depends only on the responder. -/
def moc_rspval (r : Responder) : MocValue :=
  match r.rspfn with
  | .rsprt => r.rval
  | .rspinc => moc_emptyval

/-- Execution of one responder: its result value together with its memory
effect (`moc_rspinc` increments through its stored pointer). -/
def moc_rspapply (r : Responder) (mem : Mem) : MocValue × Mem :=
  match r.rspfn with
  | .rsprt => (r.rval, mem)
  | .rspinc => (moc_emptyval, moc_rspinc_mem r.rval mem)

/-- Model of `moc_matchers_eq` (src/mocito.c lines 2112-2131): two matchers
are equal when their options bytes, their operation functions (compared as
function pointers) and their stored values (via `moc_values_eq`) are equal. -/
def moc_matchers_eq (m1 m2 : Matcher) : Bool :=
  if m1.mopts != m2.mopts then false
  else if m1.mtcfn != m2.mtcfn then false
  else if !(moc_values_eq m1.mval m2.mval) then false
  else true

/-- Model of `struct moc_mapping`: the copied matcher array (ordinary
matchers followed by the extra matchers), the number of extra matchers
and the list of responder groups. -/
structure Mapping where
  matchers : List Matcher
  nxmatchers : Nat
  lresps : List (List Responder)
deriving DecidableEq, Repr

instance : Inhabited Mapping := ⟨⟨[], 0, []⟩⟩

/-- Model of `struct moc_function`: the name, the number of parameters and
the list of mappings in configuration order. -/
structure Func where
  name : String
  nparams : Nat
  lmaps : List Mapping
deriving DecidableEq, Repr

instance : Inhabited Func := ⟨⟨"", 0, []⟩⟩

/-- Model of the registry part of `struct moc_context`: the committed
function entries (the C array slots below `nfuncs`) together with the five
capacities and the four remaining element counts of the arena (`nfuncs` is
the length of `funcs`). -/
structure Registry where
  funcs : List Func
  maxfuncs : Nat
  maxmaps : Nat
  maxmatcs : Nat
  maxresps : Nat
  maxlnods : Nat
  nmaps : Nat
  nmatcs : Nat
  nresps : Nat
  nlnods : Nat
deriving DecidableEq, Repr

/-- Model of the data of `struct moc_error_t` filled by `moc_send_error`. -/
structure ErrT where
  errnum : Nat
  funcname : String
  pos : Nat
  acttype : Nat
  exptype : Nat
deriving DecidableEq, Repr

/- Error codes, from the MOC_ERR_* definitions of the source. -/
def MOC_ERR_NFUNLIMIT : Nat := 1
def MOC_ERR_NMAPLIMIT : Nat := 2
def MOC_ERR_NMTCLIMIT : Nat := 3
def MOC_ERR_NRSPLIMIT : Nat := 4
def MOC_ERR_NNODLIMIT : Nat := 5
def MOC_ERR_PARAMTYPE : Nat := 6
def MOC_ERR_RETURTYPE : Nat := 7
def MOC_ERR_INVALTYPE : Nat := 8
def MOC_ERR_INVALOPER : Nat := 9
def MOC_ERR_FUNNOTFND : Nat := 10
def MOC_ERR_MAPNOTFND : Nat := 11
def MOC_ERR_INVALMTCH : Nat := 12
def MOC_ERR_INVNPARAM : Nat := 13

/-- First index of a list member satisfying the test, mirroring the search
loops of the source. -/
def moc_findidx {α : Type} (p : α → Bool) : List α → Option Nat
  | [] => none
  | a :: l =>
    if p a then some 0
    else match moc_findidx p l with
         | some j => some (j + 1)
         | none => none

/-- Search test of `moc_given_nnn` and `moc_act_n` for a function entry:
equal number of parameters and equal name (`moc_strcmp` returning 0). -/
def moc_funcmatch (funcname : String) (nparams : Nat) (fn : Func) : Bool :=
  fn.nparams == nparams && fn.name == funcname

/-- Model of the inner loop of the mapping search of `moc_given_nnn`
(src/mocito.c lines 2163-2171): the loop breaks, declaring the mapping
node found, as soon as ONE position compares equal under
`moc_matchers_eq`; the mapping is taken when the break happened, i.e.
when some position below the total number of matchers compares equal.
The source indexes the given ordinary matcher array `matchers + m` even
for the extra positions `m ≥ nmatchers`, reading past the array the
caller passed; the model reads the given extra matchers there. -/
def moc_mtcseq_any (stored given : List Matcher) (total : Nat) : Bool :=
  (List.range total).any (fun m =>
    moc_matchers_eq (stored.getD m moc_emptymtc) (given.getD m moc_emptymtc))

/-- Search test of `moc_given_nnn` for a mapping node: equal number of
extra matchers and the (buggy, see `moc_mtcseq_any`) matcher-sequence
comparison. -/
def moc_mapmatch (given : List Matcher) (nxmatchers total : Nat)
    (map : Mapping) : Bool :=
  map.nxmatchers == nxmatchers && moc_mtcseq_any map.matchers given total

/-- First position (1-based, counting ordinary matchers, then extra
matchers, then responders) whose stored value has an invalid type, with
that type, mirroring the three validation loops of `moc_given_nnn`
(src/mocito.c lines 2207-2231). -/
def moc_firstinval (matchers xmatchers : List Matcher)
    (responders : List Responder) : Option (Nat × Nat) :=
  let types := matchers.map (fun m => m.mval.type)
    ++ xmatchers.map (fun m => m.mval.type)
    ++ responders.map (fun r => r.rval.type)
  match moc_findidx (fun t => !(moc_isvalidtype t)) types with
  | some idx => some (idx + 1, (types.getD idx 0))
  | none => none

/-- Commit step of `moc_given_nnn`: all capacity checks and stored-value
validations, then the mutation of the registry, for a call that found the
function entry at `f` (or, when `isnewfunc` is true, will append a new
entry) and found an existing mapping node at `mnode` (or none). -/
def moc_given_commit (reg : Registry) (funcname : String) (f : Nat)
    (isnewfunc : Bool) (mnode : Option Nat) (matchers xmatchers : List Matcher)
    (responders : List Responder) : Registry × List ErrT :=
  let nmatchers := matchers.length
  let nxmatchers := xmatchers.length
  if mnode == none && reg.nmaps == reg.maxmaps then
    (reg, [⟨MOC_ERR_NMAPLIMIT, funcname, 0, 0, 0⟩])
  else if mnode == none
      && decide (reg.maxmatcs - reg.nmatcs < nmatchers + nxmatchers) then
    (reg, [⟨MOC_ERR_NMTCLIMIT, funcname, 0, 0, 0⟩])
  else if decide (reg.maxlnods - reg.nlnods
      < (if mnode == none then 1 else 0) + 1) then
    (reg, [⟨MOC_ERR_NNODLIMIT, funcname, 0, 0, 0⟩])
  else if decide (reg.maxresps - reg.nresps < responders.length) then
    (reg, [⟨MOC_ERR_NRSPLIMIT, funcname, 0, 0, 0⟩])
  else
    match moc_firstinval matchers xmatchers responders with
    | some (pos, type) =>
      (reg, [⟨MOC_ERR_INVALTYPE, funcname, pos, type, type⟩])
    | none =>
      match mnode with
      | none =>
        let mp : Mapping :=
          ⟨matchers ++ xmatchers, nxmatchers, [responders]⟩
        let funcs' :=
          if isnewfunc then
            reg.funcs ++ [⟨funcname, nmatchers, [mp]⟩]
          else
            reg.funcs.set f
              (let fn := reg.funcs.getD f default
               ⟨fn.name, fn.nparams, fn.lmaps ++ [mp]⟩)
        ({ reg with funcs := funcs',
                    nmaps := reg.nmaps + 1,
                    nmatcs := reg.nmatcs + (nmatchers + nxmatchers),
                    nresps := reg.nresps + responders.length,
                    nlnods := reg.nlnods + 2 }, [])
      | some j =>
        let fn := reg.funcs.getD f default
        let mp := fn.lmaps.getD j default
        let funcs' := reg.funcs.set f
          ⟨fn.name, fn.nparams,
           fn.lmaps.set j ⟨mp.matchers, mp.nxmatchers, mp.lresps ++ [responders]⟩⟩
        ({ reg with funcs := funcs',
                    nresps := reg.nresps + responders.length,
                    nlnods := reg.nlnods + 1 }, [])

/-- Model of `moc_given_nnn` (src/mocito.c lines 2133-2264): look the
function entry up by name and number of ordinary matchers, creating one
when absent if the capacity allows; search its mappings for an equal node
(see `moc_mapmatch`); check the remaining capacities, validate the stored
value types, and only then commit, either appending the responder group
to the found mapping node or appending a new mapping holding a copy of
all given matchers and the responder group. -/
def moc_given_nnn (reg : Registry) (funcname : String)
    (matchers xmatchers : List Matcher) (responders : List Responder) :
    Registry × List ErrT :=
  let nmatchers := matchers.length
  let nxmatchers := xmatchers.length
  match moc_findidx (moc_funcmatch funcname nmatchers) reg.funcs with
  | some f =>
    let func := reg.funcs.getD f default
    let mnode := moc_findidx
      (moc_mapmatch (matchers ++ xmatchers) nxmatchers (nmatchers + nxmatchers))
      func.lmaps
    moc_given_commit reg funcname f false mnode matchers xmatchers responders
  | none =>
    if reg.funcs.length == reg.maxfuncs then
      (reg, [⟨MOC_ERR_NFUNLIMIT, funcname, 0, 0, 0⟩])
    else
      moc_given_commit reg funcname reg.funcs.length true none
        matchers xmatchers responders

/-- Model of `moc_given`: `moc_given_nnn` with no extra matchers. -/
def moc_given (reg : Registry) (funcname : String) (matchers : List Matcher)
    (responders : List Responder) : Registry × List ErrT :=
  moc_given_nnn reg funcname matchers [] responders

/-- Model of `moc_given_extra`: `moc_given_nnn` with extra matchers. -/
def moc_given_extra (reg : Registry) (funcname : String)
    (matchers xmatchers : List Matcher) (responders : List Responder) :
    Registry × List ErrT :=
  moc_given_nnn reg funcname matchers xmatchers responders

/-- Model of `moc_iscmpfn`: the operation function of the matcher is one of
the ordering comparison functions `moc_cmplt`, `moc_cmple`, `moc_cmpgt`,
`moc_cmpge` (compared as function pointers). -/
def moc_iscmpfn (mtc : Matcher) : Bool :=
  mtc.mtcfn == .cmpop .lt || mtc.mtcfn == .cmpop .le
    || mtc.mtcfn == .cmpop .gt || mtc.mtcfn == .cmpop .ge

/-- Model of `moc_chkmtc` (src/mocito.c lines 2274-2316): validates the
placement of the matcher at 1-based position `pos` for a call with
`nparams` parameters, the range of a referenced parameter number, the
stored value type, the comparison operator for the function kind, and the
type agreement between the stored value and its source parameter; returns
the reported error when a check fails. -/
def moc_chkmtc (pm : Matcher) (pos : Nat) (funcname : String) (nparams : Nat)
    (params : List MocValue) : Option ErrT :=
  let opts := pm.mopts
  if (decide (pos ≤ nparams) && !(opts == 0) && !(opts == 128))
      || (decide (pos > nparams) && (opts == 0 || opts == 128)) then
    some ⟨MOC_ERR_INVALMTCH, funcname, pos, 0, 0⟩
  else if decide (pos > nparams) && (opts == MOC_MAXPARAMS
      || (decide (opts < MOC_MAXPARAMS) && decide (opts > nparams))
      || (decide (opts > 128) && decide (opts < 128 + MOC_MAXPARAMS)
          && decide (opts - 128 > nparams))) then
    some ⟨MOC_ERR_INVNPARAM, funcname, pos, 0, 0⟩
  else if !(moc_isvalidtype pm.mval.type) then
    some ⟨MOC_ERR_INVALTYPE, funcname, pos, pm.mval.type, pm.mval.type⟩
  else if pm.mval.type == moc_type_fn && moc_iscmpfn pm then
    some ⟨MOC_ERR_INVALOPER, funcname, pos, 0, 0⟩
  else if decide (pos ≤ nparams) && decide (opts < MOC_MAXPARAMS)
      && !(pm.mval.type == (params.getD (pos - 1) moc_emptyval).type) then
    some ⟨MOC_ERR_PARAMTYPE, funcname, pos,
      (params.getD (pos - 1) moc_emptyval).type, pm.mval.type⟩
  else if decide (pos > nparams) && decide (opts < MOC_MAXPARAMS)
      && !(pm.mval.type == (params.getD (opts - 1) moc_emptyval).type) then
    some ⟨MOC_ERR_PARAMTYPE, funcname, pos,
      (params.getD (opts - 1) moc_emptyval).type, pm.mval.type⟩
  else none

/-- Result of evaluating one matcher position during dispatch. -/
inductive MtcR where
  | err (e : ErrT)
  | ok (b : Bool)
deriving DecidableEq, Repr

/-- Evaluation of the matcher at 0-based position `m` in the matcher loop
of `moc_act_n` (src/mocito.c lines 2375-2401): run `moc_chkmtc` at 1-based
position `m + 1`; when it passes, invoke the operation function on the
source parameter, resolved as `params[m]` for an ordinary position and as
`params[opts - 1]` (or `params[opts - 128 - 1]` for the no-check encoding)
for an extra position.  The whole-call branch (options byte 255) invokes
the stored whole-call operation function; the library defines no such
function itself (moc_xcall only wraps client functions, outside the model),
so that branch is modelled as a failing match. -/
def moc_evalmtc (pm : Matcher) (m : Nat) (funcname : String) (nparams : Nat)
    (params : List MocValue) : MtcR :=
  match moc_chkmtc pm (m + 1) funcname nparams params with
  | some e => .err e
  | none =>
    if pm.mopts == 128 + MOC_MAXPARAMS then
      .ok false
    else
      let i := if decide (m < nparams) then m
               else if decide (pm.mopts > 128) then pm.mopts - 128 - 1
               else pm.mopts - 1
      .ok (moc_mtcapply pm.mtcfn (params.getD i moc_emptyval) pm.mval)

/-- Result of evaluating all the matchers of one mapping. -/
inductive MEval where
  | err (e : ErrT)
  | pass
  | fail
deriving DecidableEq, Repr

/-- Loop of `moc_evalmtcs` over the matcher positions. -/
def moc_evalmtcs_go (matchers : List Matcher) (funcname : String)
    (nparams : Nat) (params : List MocValue) : List Nat → MEval
  | [] => .pass
  | m :: rest =>
    match moc_evalmtc (matchers.getD m moc_emptymtc) m funcname nparams params with
    | .err e => .err e
    | .ok false => .fail
    | .ok true => moc_evalmtcs_go matchers funcname nparams params rest

/-- Evaluation of one candidate mapping by the dispatch loop: its matcher
positions 0 .. nparams + nxmatchers - 1 are evaluated in order; the first
check error aborts the dispatch, the first false match rejects the
mapping, and a mapping with every matcher true is selected. -/
def moc_evalmtcs (map : Mapping) (funcname : String) (nparams : Nat)
    (params : List MocValue) : MEval :=
  moc_evalmtcs_go map.matchers funcname nparams params
    (List.range (nparams + map.nxmatchers))

/-- Result of the mapping search of `moc_act_n`. -/
inductive MapSearch where
  | err (e : ErrT)
  | found (j : Nat)
  | notfnd
deriving DecidableEq, Repr

/-- Mapping search of `moc_act_n` (src/mocito.c lines 2371-2407): the
mappings of the entry are tried in configuration order; a check error
aborts, the first fully matching mapping is selected, and exhausting the
list reports that no mapping matched. -/
def moc_findmap (funcname : String) (nparams : Nat) (params : List MocValue) :
    List Mapping → MapSearch
  | [] => .notfnd
  | mp :: rest =>
    match moc_evalmtcs mp funcname nparams params with
    | .err e => .err e
    | .pass => .found 0
    | .fail =>
      match moc_findmap funcname nparams params rest with
      | .found j => .found (j + 1)
      | r => r

/-- Model of `moc_chkrsp` (src/mocito.c lines 2318-2344): validates the
referenced parameter number of the responder at 1-based position `pos`,
its stored value type, and the type agreement with the referenced
parameter when type checking is enabled. -/
def moc_chkrsp (pr : Responder) (pos : Nat) (funcname : String)
    (nparams : Nat) (params : List MocValue) : Option ErrT :=
  let opts := pr.ropts
  if opts == 0 || opts == MOC_MAXPARAMS
      || (decide (opts < MOC_MAXPARAMS) && decide (opts > nparams))
      || (decide (opts > 128) && decide (opts < 128 + MOC_MAXPARAMS)
          && decide (opts - 128 > nparams)) then
    some ⟨MOC_ERR_INVNPARAM, funcname, pos, 0, 0⟩
  else if !(moc_isvalidtype pr.rval.type) then
    some ⟨MOC_ERR_INVALTYPE, funcname, pos, pr.rval.type, pr.rval.type⟩
  else if decide (opts < MOC_MAXPARAMS)
      && !(pr.rval.type == (params.getD (opts - 1) moc_emptyval).type) then
    some ⟨MOC_ERR_PARAMTYPE, funcname, pos,
      (params.getD (opts - 1) moc_emptyval).type, pr.rval.type⟩
  else none

/-- Check loop over the head responder group of the selected mapping
(src/mocito.c lines 2414-2422): `moc_chkrsp` on each responder, at the
1-based positions continuing after the matcher positions. -/
def moc_chkgrp (grp : List Responder) (pos : Nat) (funcname : String)
    (nparams : Nat) (params : List MocValue) : Option ErrT :=
  match grp with
  | [] => none
  | r :: rest =>
    match moc_chkrsp r pos funcname nparams params with
    | some e => some e
    | none => moc_chkgrp rest (pos + 1) funcname nparams params

/-- Execution loop over the head responder group (src/mocito.c lines
2424-2439): each responder is executed in order, the running result is
overwritten by each responder and starts as the empty value, and the
memory effects are threaded through. -/
def moc_execgrp (grp : List Responder) (mem : Mem) : MocValue × Mem :=
  grp.foldl (fun acc r => moc_rspapply r acc.2) (moc_emptyval, mem)

/-- Result value of executing a responder group: the result of its last
responder, or the empty value for a group with no responders. -/
def moc_grpval (grp : List Responder) : MocValue :=
  grp.foldl (fun _ r => moc_rspval r) moc_emptyval

/-- Model of the head-to-tail rotation `moc_inslastlistnode(lst,
moc_delfirstlistnode(lst))` on the responder-group list. -/
def moc_rot {α : Type} : List α → List α
  | [] => []
  | x :: xs => xs ++ [x]

/-- Replacement of the responder-group list of the mapping at position `j`
of the function entry at position `f` (the in-place mutation through the
mapping pointer in the source). -/
def moc_setlresps (reg : Registry) (f j : Nat)
    (lresps : List (List Responder)) : Registry :=
  let fn := reg.funcs.getD f default
  let mp := fn.lmaps.getD j default
  let mp' : Mapping := ⟨mp.matchers, mp.nxmatchers, lresps⟩
  let fn' : Func := ⟨fn.name, fn.nparams, fn.lmaps.set j mp'⟩
  { reg with funcs := reg.funcs.set f fn' }

/-- Result of one dispatch: the registry, the memory, the reported errors
in order, and the returned value. -/
structure ActR where
  reg : Registry
  mem : Mem
  errs : List ErrT
  ret : MocValue

/-- Model of `moc_act_n` (src/mocito.c lines 2346-2450): find the function
entry by name and number of parameters, search a mapping whose matchers
all match, check the responders of its head group, execute them in order,
report a mismatch of the result type against the expected return type
(still returning the result), and move the head responder group to the
tail of the list when the mapping has more than one group. -/
def moc_act_n (reg : Registry) (mem : Mem) (funcname : String)
    (rettype : Nat) (params : List MocValue) : ActR :=
  let nparams := params.length
  match moc_findidx (moc_funcmatch funcname nparams) reg.funcs with
  | none =>
    ⟨reg, mem, [⟨MOC_ERR_FUNNOTFND, funcname, nparams, 0, 0⟩], moc_emptyval⟩
  | some f =>
    let func := reg.funcs.getD f default
    match moc_findmap funcname nparams params func.lmaps with
    | .err e => ⟨reg, mem, [e], moc_emptyval⟩
    | .notfnd =>
      ⟨reg, mem, [⟨MOC_ERR_MAPNOTFND, funcname, nparams, 0, 0⟩], moc_emptyval⟩
    | .found j =>
      let map := func.lmaps.getD j default
      let grp := map.lresps.headD []
      match moc_chkgrp grp (1 + nparams + map.nxmatchers) funcname nparams
          params with
      | some e => ⟨reg, mem, [e], moc_emptyval⟩
      | none =>
        let res := moc_execgrp grp mem
        let errs := if res.1.type == rettype then []
          else [⟨MOC_ERR_RETURTYPE, funcname, 0, res.1.type, rettype⟩]
        if decide (1 < map.lresps.length) then
          ⟨moc_setlresps reg f j (moc_rot map.lresps), res.2, errs, res.1⟩
        else
          ⟨reg, res.2, errs, res.1⟩

/-- Model of `moc_act`: `moc_act_n` on the grouped parameter values. -/
def moc_act (reg : Registry) (mem : Mem) (funcname : String)
    (rettype : Nat) (params : List MocValue) : ActR :=
  moc_act_n reg mem funcname rettype params

/-- Registry and memory after one dispatch. -/
def moc_actstep (funcname : String) (rettype : Nat) (params : List MocValue)
    (s : Registry × Mem) : Registry × Mem :=
  ((moc_act_n s.1 s.2 funcname rettype params).reg,
   (moc_act_n s.1 s.2 funcname rettype params).mem)

/-- Registry and memory after `k` consecutive identical dispatches. -/
def moc_actsteps (funcname : String) (rettype : Nat) (params : List MocValue) :
    Nat → Registry × Mem → Registry × Mem
  | 0, s => s
  | k + 1, s => moc_actsteps funcname rettype params k
      (moc_actstep funcname rettype params s)

/-- Value returned by the next dispatch from a state. -/
def moc_actret (funcname : String) (rettype : Nat) (params : List MocValue)
    (s : Registry × Mem) : MocValue :=
  (moc_act_n s.1 s.2 funcname rettype params).ret

/-- Primitive equality of two direct values of a given kind following the
words of the specification: the eleven numeric kinds compare under the
native equality of the kind, the function kind compares the stored
function addresses, the void kind carries no primitive datum so the
requirement that the stored primitives be equal holds vacuously, and a
kind outside the tag space never compares equal. -/
def moc_spec_primeq (kind : Nat) (v1 v2 : MocValue) : Bool :=
  match kind with
  | 0 => true
  | 1 | 2 | 3 | 4 | 7 | 8 | 9 | 10 | 11 => moc_get_int v1 == moc_get_int v2
  | 5 | 6 => decide (moc_get_rat v1 = moc_get_rat v2)
  | 12 => moc_get_fn v1 == moc_get_fn v2
  | _ => false

/-- Value equality following the words of the specification and of claim
C5: the type tags are equal and, when the indirection is not direct, the
stored addresses are identical, while when the indirection is direct the
stored primitives are equal under the native equality of the kind
(`moc_spec_primeq`, with the void kind vacuously equal). -/
def moc_spec_values_eq (v1 v2 : MocValue) : Bool :=
  v1.type == v2.type &&
    (if v1.type % 4 != 0 then moc_get_p v1 == moc_get_p v2
     else moc_spec_primeq (v1.type / 4) v1 v2)

/-- Amended primitive equality: as `moc_spec_primeq` except that the void
kind, which carries no primitive datum, never compares equal (as the
default switch case of the source decides). -/
def moc_spec_primeq_amd (kind : Nat) (v1 v2 : MocValue) : Bool :=
  match kind with
  | 0 => false
  | 1 | 2 | 3 | 4 | 7 | 8 | 9 | 10 | 11 => moc_get_int v1 == moc_get_int v2
  | 5 | 6 => decide (moc_get_rat v1 = moc_get_rat v2)
  | 12 => moc_get_fn v1 == moc_get_fn v2
  | _ => false

/-- Amended specification of value equality: tags equal and addresses
identical for the indirect kinds, primitives natively equal for the
direct non-void kinds, never equal for the direct void kind. -/
def moc_spec_values_eq_amd (v1 v2 : MocValue) : Bool :=
  v1.type == v2.type &&
    (if v1.type % 4 != 0 then moc_get_p v1 == moc_get_p v2
     else moc_spec_primeq_amd (v1.type / 4) v1 v2)

/-- Memory with every cell zero, used as a concrete initial memory. -/
def moc_mem0 : Mem := fun _ => 0

/-- Registry with no function entries and every capacity equal to `cap`,
as left by `moc_init` on a sufficient memory block. -/
def moc_reg0 (cap : Nat) : Registry := ⟨[], cap, cap, cap, cap, cap, 0, 0, 0, 0⟩

/-- Registry of the concrete scenario of claim C1: one configure call for
function f with arity 2, ordinary matchers equals(int 10) and the untyped
wildcard, and the single responder return(int 99). -/
def moc_regc1 : Registry :=
  (moc_given (moc_reg0 10) "f" [moc_eq (moc_i 10), moc_any]
    [moc_return (moc_i 99)]).1

/-- Registry after the first configure call of the claim C4 scenario:
function g with arity 2, matchers equals(10) and equals(20), responder
return(1). -/
def moc_regc4a : Registry :=
  (moc_given (moc_reg0 10) "g" [moc_eq (moc_i 10), moc_eq (moc_i 20)]
    [moc_return (moc_i 1)]).1

/-- Registry after the second configure call of the claim C4 scenario:
same function g, matchers equals(10) and equals(30) (identical at the
first position only), responder return(2). -/
def moc_regc4b : Registry :=
  (moc_given moc_regc4a "g" [moc_eq (moc_i 10), moc_eq (moc_i 30)]
    [moc_return (moc_i 2)]).1

/-- Registry for the witness of claim C2: function h with arity 1 is
configured twice with the identical matcher equals(int 5), so the second
call appends a second responder group to the same mapping. -/
def moc_regc2 : Registry :=
  (moc_given ((moc_given (moc_reg0 10) "h" [moc_eq (moc_i 5)]
      [moc_return (moc_i 1)]).1) "h" [moc_eq (moc_i 5)]
    [moc_return (moc_i 2)]).1

/-- Registry for the witness of claim C3: function k with arity 1 holds
two mappings, equals(int 5) configured first and the untyped wildcard
configured second, both of which pass for the parameter int 5. -/
def moc_regc3 : Registry :=
  (moc_given ((moc_given (moc_reg0 10) "k" [moc_eq (moc_i 5)]
      [moc_return (moc_i 1)]).1) "k" [moc_any]
    [moc_return (moc_i 2)]).1

/-- Registry for the witness of claim C7: function w7 answers with a
char-typed value, to be dispatched with the int return tag. -/
def moc_regc7 : Registry :=
  (moc_given (moc_reg0 10) "w7" [moc_eq (moc_i 5)]
    [moc_return (moc_c 1)]).1

/-- Registry for the witness of claim C10: function w10 is configured
with a responder group holding zero responders. -/
def moc_regc10 : Registry :=
  (moc_given (moc_reg0 10) "w10" [moc_eq (moc_i 5)] []).1

/-! Theorems. -/

/-- Helper: the switch of `moc_values_eq` agrees at every standard type
with the amended specification of primitive equality. -/
theorem moc_values_eq_std_amd (k : Nat) (v1 v2 : MocValue) :
    moc_values_eq_std k v1 v2 = moc_spec_primeq_amd k v1 v2 := by
  match k with
  | 0 => rfl
  | 1 => rfl
  | 2 => rfl
  | 3 => rfl
  | 4 => rfl
  | 5 => rfl
  | 6 => rfl
  | 7 => rfl
  | 8 => rfl
  | 9 => rfl
  | 10 => rfl
  | 11 => rfl
  | 12 => rfl
  | n + 13 => rfl

/-- C5, counterexample: the claimed equivalence of `moc_values_eq` with
the specified tag-and-primitive comparison fails at the void kind: two
empty values carry the same tag byte 0 (kind void, direct indirection)
and no primitive datum, so the specified comparison declares them equal,
but `moc_values_eq` falls into the default switch case and returns false. -/
theorem moc_c5_void_counterexample :
    moc_values_eq moc_void moc_void = false
      ∧ moc_spec_values_eq moc_void moc_void = true := by
  exact ⟨rfl, rfl⟩

/-- C5, amended: for every pair of values, `moc_values_eq` returns true
exactly when the type tags are equal and, when the indirection is not
direct, the stored addresses are identical, while when the indirection is
direct the stored primitives are equal under the native equality of the
kind — for the twelve non-void kinds; two direct values of the void kind
(which carries no primitive) never compare equal. -/
theorem moc_c5_values_eq_amended (v1 v2 : MocValue) :
    moc_values_eq v1 v2 = moc_spec_values_eq_amd v1 v2 := by
  unfold moc_values_eq moc_spec_values_eq_amd
  cases h : (v1.type == v2.type) <;>
    simp [h, moc_values_eq_std_amd]

/-- C5, amended, witness: concrete evaluations of the amended equivalence
at an equal pair, a tag-mismatched pair and a payload-mismatched pair. -/
theorem moc_c5_values_eq_amended_witness :
    moc_values_eq (moc_i 7) (moc_i 7) = moc_spec_values_eq_amd (moc_i 7) (moc_i 7)
    ∧ moc_values_eq (moc_i 7) (moc_c 7) = moc_spec_values_eq_amd (moc_i 7) (moc_c 7)
    ∧ moc_values_eq (moc_p 3) (moc_p 4) = moc_spec_values_eq_amd (moc_p 3) (moc_p 4) :=
  ⟨moc_c5_values_eq_amended (moc_i 7) (moc_i 7),
   moc_c5_values_eq_amended (moc_i 7) (moc_c 7),
   moc_c5_values_eq_amended (moc_p 3) (moc_p 4)⟩

/-- C1: for the registry configured by one configure call for f (arity 2,
ordinary matchers equals(int 10) and the untyped wildcard moc_any, single
responder return(int 99)), and for every second parameter x and memory,
the configure call reports no error, a dispatch with expected return tag
int and parameters [int 10, x] returns the value int 99 with no error and
no state change, and a dispatch with parameters [int 11, x] reports the
no-mapping-matched error and returns the empty value. -/
theorem moc_c1_scenario (x : MocValue) (mem : Mem) :
    (moc_given (moc_reg0 10) "f" [moc_eq (moc_i 10), moc_any]
        [moc_return (moc_i 99)]).2 = []
    ∧ moc_act_n moc_regc1 mem "f" moc_type_i [moc_i 10, x]
        = ⟨moc_regc1, mem, [], moc_i 99⟩
    ∧ moc_act_n moc_regc1 mem "f" moc_type_i [moc_i 11, x]
        = ⟨moc_regc1, mem, [⟨MOC_ERR_MAPNOTFND, "f", 2, 0, 0⟩], moc_emptyval⟩ := by
  refine ⟨by decide, ?_, ?_⟩ <;>
    simp [moc_act_n, moc_regc1, moc_reg0, moc_given, moc_given_nnn,
      moc_given_commit, moc_findidx, moc_funcmatch, moc_mapmatch,
      moc_mtcseq_any, moc_firstinval, moc_isvalidtype, moc_findmap,
      moc_evalmtcs, moc_evalmtcs_go, moc_evalmtc, moc_chkmtc, moc_mtcapply,
      moc_cmpop, moc_swopint, moc_iscmpfn, moc_chkgrp, moc_chkrsp,
      moc_execgrp, moc_rspapply, moc_rspval, moc_rot, moc_setlresps,
      moc_eq, moc_any, moc_mparam, moc_mparam_nochk, moc_return, moc_rcall,
      moc_i, moc_get_int, moc_emptyval, moc_emptymtc, moc_type_i,
      moc_type_fn, MOC_MAXPARAMS, MOC_ERR_MAPNOTFND, List.range,
      List.range.loop]

/-- C4: evaluation of the code at the failing input of the claim.  The
second configure call for g gives matchers equals(10), equals(30), which
differ from the stored matchers equals(10), equals(20) at position 2, so
under the claim a second mapping would be appended; instead the mapping
search of `moc_given_nnn` declares a mapping equal as soon as one matcher
position compares equal (the first position here), the responder group
return(2) is appended to the first mapping, the matchers equals(10),
equals(30) are discarded, and a dispatch with parameters [10, 30] —
which the second configure call was written to serve — reports the
no-mapping-matched error. -/
theorem moc_c4_anyeq_append (mem : Mem) :
    moc_matchers_eq (moc_eq (moc_i 20)) (moc_eq (moc_i 30)) = false
    ∧ (moc_given moc_regc4a "g" [moc_eq (moc_i 10), moc_eq (moc_i 30)]
        [moc_return (moc_i 2)]).2 = []
    ∧ (moc_regc4b.funcs.getD 0 default).lmaps
        = [⟨[moc_eq (moc_i 10), moc_eq (moc_i 20)], 0,
            [[moc_return (moc_i 1)], [moc_return (moc_i 2)]]⟩]
    ∧ (moc_act_n moc_regc4b mem "g" moc_type_i [moc_i 10, moc_i 30]).errs
        = [⟨MOC_ERR_MAPNOTFND, "g", 2, 0, 0⟩]
    ∧ (moc_act_n moc_regc4b mem "g" moc_type_i [moc_i 10, moc_i 30]).ret
        = moc_emptyval := by
  refine ⟨by decide, by decide, by decide, ?_, ?_⟩ <;>
    simp [moc_act_n, moc_regc4b, moc_regc4a, moc_reg0, moc_given,
      moc_given_nnn, moc_given_commit, moc_findidx, moc_funcmatch,
      moc_mapmatch, moc_mtcseq_any, moc_matchers_eq, moc_values_eq,
      moc_values_eq_std, moc_get_int, moc_firstinval, moc_isvalidtype,
      moc_findmap, moc_evalmtcs, moc_evalmtcs_go, moc_evalmtc, moc_chkmtc,
      moc_mtcapply, moc_cmpop, moc_swopint, moc_iscmpfn, moc_chkgrp,
      moc_chkrsp, moc_execgrp, moc_rspapply, moc_rspval, moc_rot,
      moc_setlresps, moc_eq, moc_mparam, moc_return, moc_rcall, moc_i,
      moc_emptyval, moc_emptymtc, moc_type_i, moc_type_fn, MOC_MAXPARAMS,
      MOC_ERR_MAPNOTFND, List.range, List.range.loop]

/-- Helper: a successful index search lands inside the list and the test
holds at the found element. -/
theorem moc_findidx_some {α : Type} [Inhabited α] (p : α → Bool)
    (l : List α) (f : Nat) (h : moc_findidx p l = some f) :
    f < l.length ∧ p (l.getD f default) = true := by
  induction l generalizing f with
  | nil => simp [moc_findidx] at h
  | cons a l ih =>
    rw [moc_findidx] at h
    cases hp : p a with
    | true =>
      rw [hp] at h
      simp at h
      subst h
      simpa using hp
    | false =>
      rw [hp] at h
      simp only [Bool.false_eq_true, if_false] at h
      cases hfind : moc_findidx p l with
      | none => rw [hfind] at h; cases h
      | some i =>
        rw [hfind] at h
        cases h
        obtain ⟨h1, h2⟩ := ih i hfind
        exact ⟨Nat.succ_lt_succ h1, by simpa using h2⟩

/-- Helper: replacing a list element by one on which the search test gives
the same result leaves the index search unchanged. -/
theorem moc_findidx_set {α : Type} [Inhabited α] (p : α → Bool)
    (l : List α) (i : Nat) (x : α) (h : p x = p (l.getD i default)) :
    moc_findidx p (l.set i x) = moc_findidx p l := by
  induction l generalizing i with
  | nil => simp
  | cons a l ih =>
    cases i with
    | zero =>
      rw [List.set_cons_zero, moc_findidx, moc_findidx]
      rw [List.getD_cons_zero] at h
      rw [h]
    | succ i =>
      rw [List.set_cons_succ, moc_findidx, moc_findidx]
      rw [List.getD_cons_succ] at h
      rw [ih i h]

/-- Helper: writing back the element already stored at a position leaves
the list unchanged. -/
theorem moc_list_set_self {α : Type} [Inhabited α] (l : List α) (i : Nat) :
    l.set i (l.getD i default) = l := by
  induction l generalizing i with
  | nil => simp
  | cons a l ih =>
    cases i with
    | zero => rw [List.getD_cons_zero, List.set_cons_zero]
    | succ i => rw [List.getD_cons_succ, List.set_cons_succ, ih]

/-- Helper: reading back a just-written element. -/
theorem moc_list_getD_set {α : Type} (l : List α) (i : Nat) (x d : α)
    (h : i < l.length) : (l.set i x).getD i d = x := by
  induction l generalizing i with
  | nil => simp at h
  | cons a l ih =>
    cases i with
    | zero => rw [List.set_cons_zero, List.getD_cons_zero]
    | succ i =>
      rw [List.set_cons_succ, List.getD_cons_succ]
      exact ih i (Nat.lt_of_succ_lt_succ h)

/-- Helper: the evaluation of the matchers of a mapping depends only on
its matcher array and its number of extra matchers. -/
theorem moc_evalmtcs_congr (mp mp' : Mapping) (funcname : String)
    (nparams : Nat) (params : List MocValue)
    (h1 : mp'.matchers = mp.matchers) (h2 : mp'.nxmatchers = mp.nxmatchers) :
    moc_evalmtcs mp' funcname nparams params
      = moc_evalmtcs mp funcname nparams params := by
  unfold moc_evalmtcs
  rw [h1, h2]

/-- Helper: replacing a mapping by one with the same matcher array and
number of extra matchers (for instance with a rotated responder-group
list) leaves the mapping search unchanged. -/
theorem moc_findmap_set (funcname : String) (nparams : Nat)
    (params : List MocValue) (lmaps : List Mapping) (j : Nat) (mp' : Mapping)
    (h1 : mp'.matchers = (lmaps.getD j default).matchers)
    (h2 : mp'.nxmatchers = (lmaps.getD j default).nxmatchers) :
    moc_findmap funcname nparams params (lmaps.set j mp')
      = moc_findmap funcname nparams params lmaps := by
  induction lmaps generalizing j with
  | nil => simp
  | cons a l ih =>
    cases j with
    | zero =>
      rw [List.getD_cons_zero] at h1 h2
      rw [List.set_cons_zero, moc_findmap, moc_findmap,
        moc_evalmtcs_congr a mp' funcname nparams params h1 h2]
    | succ j =>
      rw [List.getD_cons_succ] at h1 h2
      rw [List.set_cons_succ, moc_findmap, moc_findmap, ih j h1 h2]

/-- Helper: a found mapping index lands inside the mapping list. -/
theorem moc_findmap_found_lt (funcname : String) (nparams : Nat)
    (params : List MocValue) (lmaps : List Mapping) (j : Nat)
    (h : moc_findmap funcname nparams params lmaps = .found j) :
    j < lmaps.length := by
  induction lmaps generalizing j with
  | nil => simp [moc_findmap] at h
  | cons a l ih =>
    rw [moc_findmap] at h
    cases he : moc_evalmtcs a funcname nparams params with
    | err e => rw [he] at h; cases h
    | pass =>
      rw [he] at h
      cases h
      exact Nat.succ_pos _
    | fail =>
      rw [he] at h
      cases hfind : moc_findmap funcname nparams params l with
      | err e => rw [hfind] at h; cases h
      | notfnd => rw [hfind] at h; cases h
      | found i =>
        rw [hfind] at h
        cases h
        exact Nat.succ_lt_succ (ih i hfind)

/-- Helper: the result value of one responder execution is `moc_rspval`. -/
theorem moc_rspapply_fst (r : Responder) (mem : Mem) :
    (moc_rspapply r mem).1 = moc_rspval r := by
  cases hr : r.rspfn <;> simp [moc_rspapply, moc_rspval, hr]

/-- Helper: the value of the group-execution fold from any starting pair. -/
theorem moc_execgrp_fst_aux (grp : List Responder) :
    ∀ (v : MocValue) (mem : Mem),
      (grp.foldl (fun acc r => moc_rspapply r acc.2) (v, mem)).1
        = grp.foldl (fun _ r => moc_rspval r) v := by
  induction grp with
  | nil => intro v mem; rfl
  | cons r rest ih =>
    intro v mem
    rw [List.foldl_cons, List.foldl_cons]
    have h1 : (moc_rspapply r (v, mem).2)
        = ((moc_rspapply r mem).1, (moc_rspapply r mem).2) := rfl
    calc (rest.foldl (fun acc r => moc_rspapply r acc.2)
            (moc_rspapply r (v, mem).2)).1
        = rest.foldl (fun _ r => moc_rspval r) (moc_rspapply r mem).1 := by
          rw [h1]; exact ih (moc_rspapply r mem).1 (moc_rspapply r mem).2
      _ = rest.foldl (fun _ r => moc_rspval r) (moc_rspval r) := by
          rw [moc_rspapply_fst]

/-- Helper: the value component of a group execution is `moc_grpval`,
independent of the memory. -/
theorem moc_execgrp_fst (grp : List Responder) (mem : Mem) :
    (moc_execgrp grp mem).1 = moc_grpval grp :=
  moc_execgrp_fst_aux grp moc_emptyval mem

/-- Helper: the head of a list with a default is its element at index 0. -/
theorem moc_headD_eq_getD {α : Type} (l : List α) (d : α) :
    l.headD d = l.getD 0 d := by
  cases l <;> rfl

/-- Helper: an element read with an in-range index is a member. -/
theorem moc_getD_mem {α : Type} (l : List α) (k : Nat) (d : α)
    (hk : k < l.length) : l.getD k d ∈ l := by
  rw [List.getD_eq_getElem l d hk]
  exact List.getElem_mem hk

/-- Helper: characterization of one dispatch that finds its function entry
at `f`, selects the mapping at `j`, and passes the responder checks of the
head group: the result is the value of the head group, the only possible
error is the return-type mismatch, the memory receives the effects of the
head group, and the head group is moved to the tail of the group list
exactly when the mapping holds more than one group. -/
theorem moc_act_n_found (reg : Registry) (mem : Mem) (funcname : String)
    (rettype : Nat) (params : List MocValue) (f j : Nat) (mp : Mapping)
    (hmp : (reg.funcs.getD f default).lmaps.getD j default = mp)
    (hf : moc_findidx (moc_funcmatch funcname params.length) reg.funcs
        = some f)
    (hm : moc_findmap funcname params.length params
        (reg.funcs.getD f default).lmaps = .found j)
    (hg : moc_chkgrp (mp.lresps.headD [])
        (1 + params.length + mp.nxmatchers) funcname params.length params
        = none) :
    moc_act_n reg mem funcname rettype params =
      ⟨if decide (1 < mp.lresps.length) then
          moc_setlresps reg f j (moc_rot mp.lresps)
        else reg,
       (moc_execgrp (mp.lresps.headD []) mem).2,
       if (moc_grpval (mp.lresps.headD [])).type == rettype then []
       else [⟨MOC_ERR_RETURTYPE, funcname, 0,
          (moc_grpval (mp.lresps.headD [])).type, rettype⟩],
       moc_grpval (mp.lresps.headD [])⟩ := by
  unfold moc_act_n
  simp only [hf, hmp, hm, hg, moc_execgrp_fst]
  split <;> rfl

/-- Helper: one step of the dispatch iteration unfolds at the end. -/
theorem moc_actsteps_succ (funcname : String) (rettype : Nat)
    (params : List MocValue) (k : Nat) (s : Registry × Mem) :
    moc_actsteps funcname rettype params (k + 1) s
      = moc_actstep funcname rettype params
          (moc_actsteps funcname rettype params k s) := by
  induction k generalizing s with
  | zero => rfl
  | succ k ih =>
    rw [moc_actsteps, ih]
    rfl

/-- Helper: rotating the k-rotated list advances the rotation by one. -/
theorem moc_rot_drop_take {α : Type} (l : List α) (k : Nat)
    (hk : k < l.length) :
    moc_rot (l.drop k ++ l.take k) = l.drop (k + 1) ++ l.take (k + 1) := by
  rw [List.drop_eq_getElem_cons hk, List.cons_append, moc_rot,
    List.take_succ, List.getElem?_eq_getElem hk]
  simp [List.append_assoc]

/-- Helper: the length of the k-rotated list. -/
theorem moc_drop_take_length {α : Type} (l : List α) (k : Nat) (hk : k ≤ l.length) :
    (l.drop k ++ l.take k).length = l.length := by
  simp [List.length_append, List.length_drop, List.length_take]
  omega

/-- Helper: the head group of the k-rotated list. -/
theorem moc_headD_drop_take {α : Type} (l : List α) (k : Nat) (d : α)
    (hk : k < l.length) :
    (l.drop k ++ l.take k).headD d = l.getD k d := by
  rw [List.drop_eq_getElem_cons hk, List.cons_append]
  rw [List.getD_eq_getElem l d hk]
  rfl

/-- Helper: writing back the stored responder-group list of a mapping
leaves the registry unchanged. -/
theorem moc_setlresps_self (reg : Registry) (f j : Nat) :
    moc_setlresps reg f j
      (((reg.funcs.getD f default).lmaps.getD j default).lresps) = reg := by
  simp only [moc_setlresps]
  have h1 : (⟨((reg.funcs.getD f default).lmaps.getD j default).matchers,
      ((reg.funcs.getD f default).lmaps.getD j default).nxmatchers,
      ((reg.funcs.getD f default).lmaps.getD j default).lresps⟩ : Mapping)
      = (reg.funcs.getD f default).lmaps.getD j default := rfl
  rw [h1, moc_list_set_self]
  have h2 : (⟨(reg.funcs.getD f default).name,
      (reg.funcs.getD f default).nparams,
      (reg.funcs.getD f default).lmaps⟩ : Func)
      = reg.funcs.getD f default := rfl
  rw [h2, moc_list_set_self]

/-- Helper: the mapping stored at (f, j) after replacing its group list. -/
theorem moc_setlresps_getD (reg : Registry) (f j : Nat)
    (L : List (List Responder)) (hflt : f < reg.funcs.length)
    (hjlt : j < (reg.funcs.getD f default).lmaps.length) :
    ((moc_setlresps reg f j L).funcs.getD f default).lmaps.getD j default
      = ⟨((reg.funcs.getD f default).lmaps.getD j default).matchers,
         ((reg.funcs.getD f default).lmaps.getD j default).nxmatchers, L⟩ := by
  simp only [moc_setlresps]
  rw [moc_list_getD_set _ _ _ _ hflt]
  exact moc_list_getD_set _ _ _ _ hjlt

/-- Helper: replacing a group list does not change the function search. -/
theorem moc_setlresps_findidx (reg : Registry) (funcname : String) (n : Nat)
    (f j : Nat) (L : List (List Responder)) :
    moc_findidx (moc_funcmatch funcname n) (moc_setlresps reg f j L).funcs
      = moc_findidx (moc_funcmatch funcname n) reg.funcs := by
  simp only [moc_setlresps]
  exact moc_findidx_set _ _ _ _ rfl

/-- Helper: replacing a group list does not change the mapping search of
the owning function entry. -/
theorem moc_setlresps_findmap (reg : Registry) (funcname : String) (n : Nat)
    (params : List MocValue) (f j : Nat) (L : List (List Responder))
    (hflt : f < reg.funcs.length) :
    moc_findmap funcname n params
        ((moc_setlresps reg f j L).funcs.getD f default).lmaps
      = moc_findmap funcname n params (reg.funcs.getD f default).lmaps := by
  simp only [moc_setlresps]
  rw [moc_list_getD_set _ _ _ _ hflt]
  exact moc_findmap_set _ _ _ _ _ _ rfl rfl

/-- Helper: two successive group-list replacements at the same position
collapse to the last one. -/
theorem moc_setlresps_setlresps (reg : Registry) (f j : Nat)
    (A B : List (List Responder)) (hflt : f < reg.funcs.length)
    (hjlt : j < (reg.funcs.getD f default).lmaps.length) :
    moc_setlresps (moc_setlresps reg f j A) f j B
      = moc_setlresps reg f j B := by
  simp only [moc_setlresps]
  rw [moc_list_getD_set _ _ _ _ hflt, moc_list_getD_set _ _ _ _ hjlt,
    List.set_set, List.set_set]

/-- Helper: the responder checks of the head group pass when they pass for
every group of the mapping. -/
theorem moc_chkgrp_headD (lresps : List (List Responder)) (pos : Nat)
    (funcname : String) (nparams : Nat) (params : List MocValue)
    (hgAll : ∀ g ∈ lresps,
        moc_chkgrp g pos funcname nparams params = none) :
    moc_chkgrp (lresps.headD []) pos funcname nparams params = none := by
  cases lresps with
  | nil => rfl
  | cons g rest => exact hgAll g (List.mem_cons_self g rest)

/-- Helper: invariant of consecutive matching dispatches on a mapping with
more than one responder group: after k dispatches the group list of the
selected mapping is rotated k times and nothing else in the registry has
changed. -/
theorem moc_c2_inv (reg : Registry) (funcname : String) (rettype : Nat)
    (params : List MocValue) (f j : Nat) (mp : Mapping)
    (hmp : (reg.funcs.getD f default).lmaps.getD j default = mp)
    (hf : moc_findidx (moc_funcmatch funcname params.length) reg.funcs
        = some f)
    (hm : moc_findmap funcname params.length params
        (reg.funcs.getD f default).lmaps = .found j)
    (hgAll : ∀ g ∈ mp.lresps,
        moc_chkgrp g (1 + params.length + mp.nxmatchers) funcname
          params.length params = none)
    (hN : 1 < mp.lresps.length) :
    ∀ (k : Nat), k ≤ mp.lresps.length → ∀ (mem : Mem),
      (moc_actsteps funcname rettype params k (reg, mem)).1
        = moc_setlresps reg f j (mp.lresps.drop k ++ mp.lresps.take k) := by
  have hflt : f < reg.funcs.length := (moc_findidx_some _ _ _ hf).1
  have hjlt : j < (reg.funcs.getD f default).lmaps.length :=
    moc_findmap_found_lt _ _ _ _ _ hm
  intro k
  induction k with
  | zero =>
    intro _ mem
    show reg = _
    rw [List.drop_zero, List.take_zero, List.append_nil, ← hmp]
    exact (moc_setlresps_self reg f j).symm
  | succ k ih =>
    intro hk1 mem
    have hk : k < mp.lresps.length := Nat.lt_of_succ_le hk1
    have hreg := ih (Nat.le_of_lt hk) mem
    rw [moc_actsteps_succ]
    show (moc_act_n (moc_actsteps funcname rettype params k (reg, mem)).1
        (moc_actsteps funcname rettype params k (reg, mem)).2
        funcname rettype params).reg = _
    rw [hreg]
    have hmpK := moc_setlresps_getD reg f j
      (mp.lresps.drop k ++ mp.lresps.take k) hflt hjlt
    rw [hmp] at hmpK
    have hfK := (moc_setlresps_findidx reg funcname params.length f j
      (mp.lresps.drop k ++ mp.lresps.take k)).trans hf
    have hmK := (moc_setlresps_findmap reg funcname params.length params f j
      (mp.lresps.drop k ++ mp.lresps.take k) hflt).trans hm
    have hgK : moc_chkgrp ((mp.lresps.drop k ++ mp.lresps.take k).headD [])
        (1 + params.length + mp.nxmatchers) funcname params.length params
        = none := by
      rw [moc_headD_drop_take _ _ _ hk]
      exact hgAll _ (moc_getD_mem _ _ _ hk)
    rw [moc_act_n_found _ _ funcname rettype params f j
      ⟨mp.matchers, mp.nxmatchers, mp.lresps.drop k ++ mp.lresps.take k⟩
      hmpK hfK hmK hgK]
    dsimp only
    rw [moc_drop_take_length _ _ (Nat.le_of_lt hk)]
    rw [if_pos (by simpa using hN)]
    rw [moc_rot_drop_take _ _ hk,
      moc_setlresps_setlresps reg f j _ _ hflt hjlt]

/-- Helper: a dispatch from the k-rotated registry returns the result of
the k-th configured responder group. -/
theorem moc_c2_step_ret (reg : Registry) (funcname : String) (rettype : Nat)
    (params : List MocValue) (f j : Nat) (mp : Mapping)
    (hmp : (reg.funcs.getD f default).lmaps.getD j default = mp)
    (hf : moc_findidx (moc_funcmatch funcname params.length) reg.funcs
        = some f)
    (hm : moc_findmap funcname params.length params
        (reg.funcs.getD f default).lmaps = .found j)
    (hgAll : ∀ g ∈ mp.lresps,
        moc_chkgrp g (1 + params.length + mp.nxmatchers) funcname
          params.length params = none)
    (k : Nat) (hk : k < mp.lresps.length) (mem' : Mem) :
    (moc_act_n (moc_setlresps reg f j (mp.lresps.drop k ++ mp.lresps.take k))
        mem' funcname rettype params).ret
      = moc_grpval (mp.lresps.getD k []) := by
  have hflt : f < reg.funcs.length := (moc_findidx_some _ _ _ hf).1
  have hjlt : j < (reg.funcs.getD f default).lmaps.length :=
    moc_findmap_found_lt _ _ _ _ _ hm
  have hmpK := moc_setlresps_getD reg f j
    (mp.lresps.drop k ++ mp.lresps.take k) hflt hjlt
  rw [hmp] at hmpK
  have hfK := (moc_setlresps_findidx reg funcname params.length f j
    (mp.lresps.drop k ++ mp.lresps.take k)).trans hf
  have hmK := (moc_setlresps_findmap reg funcname params.length params f j
    (mp.lresps.drop k ++ mp.lresps.take k) hflt).trans hm
  have hgK : moc_chkgrp ((mp.lresps.drop k ++ mp.lresps.take k).headD [])
      (1 + params.length + mp.nxmatchers) funcname params.length params
      = none := by
    rw [moc_headD_drop_take _ _ _ hk]
    exact hgAll _ (moc_getD_mem _ _ _ hk)
  rw [moc_act_n_found _ _ funcname rettype params f j
    ⟨mp.matchers, mp.nxmatchers, mp.lresps.drop k ++ mp.lresps.take k⟩
    hmpK hfK hmK hgK]
  dsimp only
  rw [moc_headD_drop_take _ _ _ hk]

/-- Helper: a single-group mapping leaves the registry unchanged on every
matching dispatch, so every iterated state keeps the original registry. -/
theorem moc_c2_single_inv (reg : Registry) (funcname : String)
    (rettype : Nat) (params : List MocValue) (f j : Nat) (mp : Mapping)
    (hmp : (reg.funcs.getD f default).lmaps.getD j default = mp)
    (hf : moc_findidx (moc_funcmatch funcname params.length) reg.funcs
        = some f)
    (hm : moc_findmap funcname params.length params
        (reg.funcs.getD f default).lmaps = .found j)
    (hgAll : ∀ g ∈ mp.lresps,
        moc_chkgrp g (1 + params.length + mp.nxmatchers) funcname
          params.length params = none)
    (h1 : mp.lresps.length = 1) :
    ∀ (k : Nat) (mem : Mem),
      (moc_actsteps funcname rettype params k (reg, mem)).1 = reg := by
  have hg := moc_chkgrp_headD mp.lresps _ funcname params.length params hgAll
  intro k
  induction k with
  | zero => intro mem; rfl
  | succ k ih =>
    intro mem
    rw [moc_actsteps_succ]
    show (moc_act_n (moc_actsteps funcname rettype params k (reg, mem)).1
        (moc_actsteps funcname rettype params k (reg, mem)).2
        funcname rettype params).reg = reg
    rw [ih mem]
    rw [moc_act_n_found _ _ funcname rettype params f j mp hmp hf hm hg]
    dsimp only
    rw [h1]
    simp

/-- C2: for every mapping selected by a matching dispatch whose responder
groups all pass the responder checks: (a) the dispatch moves the
just-executed head group to the tail of the group list when the mapping
holds more than one group and leaves the registry unchanged otherwise;
(b) the k-th of N consecutive matching dispatches returns the
last-responder result of the k-th configured group, in configured order;
(c) after N dispatches the registry is back in its original state, and
(d) the (N+1)-th dispatch returns the first group result again;
(e) a mapping with exactly one responder group answers identically on
every matching dispatch. -/
theorem moc_c2_group_rotation (reg : Registry) (mem : Mem)
    (funcname : String) (rettype : Nat) (params : List MocValue)
    (f j : Nat) (mp : Mapping)
    (hmp : (reg.funcs.getD f default).lmaps.getD j default = mp)
    (hf : moc_findidx (moc_funcmatch funcname params.length) reg.funcs
        = some f)
    (hm : moc_findmap funcname params.length params
        (reg.funcs.getD f default).lmaps = .found j)
    (hgAll : ∀ g ∈ mp.lresps,
        moc_chkgrp g (1 + params.length + mp.nxmatchers) funcname
          params.length params = none) :
    ((moc_act_n reg mem funcname rettype params).reg
        = if decide (1 < mp.lresps.length) then
            moc_setlresps reg f j (moc_rot mp.lresps)
          else reg)
    ∧ (∀ k, k < mp.lresps.length →
        moc_actret funcname rettype params
            (moc_actsteps funcname rettype params k (reg, mem))
          = moc_grpval (mp.lresps.getD k []))
    ∧ (1 < mp.lresps.length →
        (moc_actsteps funcname rettype params mp.lresps.length
            (reg, mem)).1 = reg)
    ∧ (1 < mp.lresps.length →
        moc_actret funcname rettype params
            (moc_actsteps funcname rettype params mp.lresps.length
              (reg, mem))
          = moc_grpval (mp.lresps.getD 0 []))
    ∧ (mp.lresps.length = 1 → ∀ k,
        moc_actret funcname rettype params
            (moc_actsteps funcname rettype params k (reg, mem))
          = moc_grpval (mp.lresps.getD 0 [])) := by
  have hg := moc_chkgrp_headD mp.lresps _ funcname params.length params hgAll
  have hact := moc_act_n_found reg mem funcname rettype params f j mp
    hmp hf hm hg
  have hcycle : 1 < mp.lresps.length →
      (moc_actsteps funcname rettype params mp.lresps.length
        (reg, mem)).1 = reg := by
    intro hN
    rw [moc_c2_inv reg funcname rettype params f j mp hmp hf hm hgAll hN
      mp.lresps.length (Nat.le_refl _) mem]
    rw [List.drop_length, List.take_length, List.nil_append, ← hmp]
    exact moc_setlresps_self reg f j
  refine ⟨by rw [hact], ?_, hcycle, ?_, ?_⟩
  · intro k hk
    by_cases hN : 1 < mp.lresps.length
    · show (moc_act_n
          (moc_actsteps funcname rettype params k (reg, mem)).1
          (moc_actsteps funcname rettype params k (reg, mem)).2
          funcname rettype params).ret = _
      rw [moc_c2_inv reg funcname rettype params f j mp hmp hf hm hgAll hN
        k (Nat.le_of_lt hk) mem]
      exact moc_c2_step_ret reg funcname rettype params f j mp
        hmp hf hm hgAll k hk _
    · have hk0 : k = 0 := by omega
      subst hk0
      show (moc_act_n reg mem funcname rettype params).ret = _
      rw [hact]
      dsimp only
      rw [moc_headD_eq_getD]
  · intro hN
    show (moc_act_n
        (moc_actsteps funcname rettype params mp.lresps.length (reg, mem)).1
        (moc_actsteps funcname rettype params mp.lresps.length (reg, mem)).2
        funcname rettype params).ret = _
    rw [hcycle hN]
    rw [moc_act_n_found _ _ funcname rettype params f j mp hmp hf hm hg]
    dsimp only
    rw [moc_headD_eq_getD]
  · intro h1 k
    show (moc_act_n
        (moc_actsteps funcname rettype params k (reg, mem)).1
        (moc_actsteps funcname rettype params k (reg, mem)).2
        funcname rettype params).ret = _
    rw [moc_c2_single_inv reg funcname rettype params f j mp hmp hf hm hgAll
      h1 k mem]
    rw [moc_act_n_found _ _ funcname rettype params f j mp hmp hf hm hg]
    dsimp only
    rw [moc_headD_eq_getD]

/-- C2, witness: function h with two responder groups return(1), return(2)
under the single mapping equals(5): the third and fourth consecutive
matching dispatches wrap around to the first and second group results, and
two dispatches bring the registry back to its configured state. -/
theorem moc_c2_group_rotation_witness :
    (moc_actsteps "h" moc_type_i [moc_i 5] 2 (moc_regc2, moc_mem0)).1
      = moc_regc2
    ∧ moc_actret "h" moc_type_i [moc_i 5]
        (moc_actsteps "h" moc_type_i [moc_i 5] 2 (moc_regc2, moc_mem0))
      = moc_grpval [moc_return (moc_i 1)]
    ∧ moc_actret "h" moc_type_i [moc_i 5]
        (moc_actsteps "h" moc_type_i [moc_i 5] 1 (moc_regc2, moc_mem0))
      = moc_grpval [moc_return (moc_i 2)] :=
  ⟨(moc_c2_group_rotation moc_regc2 moc_mem0 "h" moc_type_i [moc_i 5] 0 0
      ⟨[moc_eq (moc_i 5)], 0, [[moc_return (moc_i 1)], [moc_return (moc_i 2)]]⟩
      (by decide) (by decide) (by decide) (by decide)).2.2.1 (by decide),
   (moc_c2_group_rotation moc_regc2 moc_mem0 "h" moc_type_i [moc_i 5] 0 0
      ⟨[moc_eq (moc_i 5)], 0, [[moc_return (moc_i 1)], [moc_return (moc_i 2)]]⟩
      (by decide) (by decide) (by decide) (by decide)).2.2.2.1 (by decide),
   (moc_c2_group_rotation moc_regc2 moc_mem0 "h" moc_type_i [moc_i 5] 0 0
      ⟨[moc_eq (moc_i 5)], 0, [[moc_return (moc_i 1)], [moc_return (moc_i 2)]]⟩
      (by decide) (by decide) (by decide) (by decide)).2.1 1 (by decide)⟩

/-- Helper: index read at the junction of an appended list. -/
theorem moc_getD_append_cons {α : Type} (pre : List α) (x : α)
    (post : List α) (d : α) :
    (pre ++ x :: post).getD pre.length d = x := by
  induction pre with
  | nil => rfl
  | cons a l ih => simpa using ih

/-- Helper: the mapping search selects the first fully matching mapping,
whatever comes after it. -/
theorem moc_findmap_append (funcname : String) (nparams : Nat)
    (params : List MocValue) (pre : List Mapping) (mp : Mapping)
    (post : List Mapping)
    (hpre : ∀ m ∈ pre, moc_evalmtcs m funcname nparams params = .fail)
    (hmp : moc_evalmtcs mp funcname nparams params = .pass) :
    moc_findmap funcname nparams params (pre ++ mp :: post)
      = .found pre.length := by
  induction pre with
  | nil =>
    rw [List.nil_append, moc_findmap, hmp]
    rfl
  | cons a l ih =>
    rw [List.cons_append, moc_findmap,
      hpre a (List.mem_cons_self a l),
      ih (fun m hm => hpre m (List.mem_cons_of_mem a hm))]
    rfl

/-- C3: for every function entry whose mapping list is any prefix of
cleanly failing mappings, then a fully passing mapping, then an arbitrary
suffix, dispatch selects the passing mapping at the end of the prefix —
for every suffix, so no mapping configured after the first fully passing
one is consulted — and executes the head responder group of that mapping,
touching no other mapping. -/
theorem moc_c3_first_mapping (reg : Registry) (mem : Mem)
    (funcname : String) (rettype : Nat) (params : List MocValue) (f : Nat)
    (pre : List Mapping) (mp : Mapping) (post : List Mapping)
    (hf : moc_findidx (moc_funcmatch funcname params.length) reg.funcs
        = some f)
    (hlm : (reg.funcs.getD f default).lmaps = pre ++ mp :: post)
    (hpre : ∀ m ∈ pre,
        moc_evalmtcs m funcname params.length params = .fail)
    (hpass : moc_evalmtcs mp funcname params.length params = .pass)
    (hg : moc_chkgrp (mp.lresps.headD [])
        (1 + params.length + mp.nxmatchers) funcname params.length params
        = none) :
    moc_findmap funcname params.length params (pre ++ mp :: post)
      = .found pre.length
    ∧ (moc_act_n reg mem funcname rettype params).ret
      = moc_grpval (mp.lresps.headD [])
    ∧ (moc_act_n reg mem funcname rettype params).reg
      = if decide (1 < mp.lresps.length) then
          moc_setlresps reg f pre.length (moc_rot mp.lresps)
        else reg := by
  have hfind := moc_findmap_append funcname params.length params pre mp post
    hpre hpass
  have hmp : (reg.funcs.getD f default).lmaps.getD pre.length default = mp := by
    rw [hlm]
    exact moc_getD_append_cons pre mp post default
  have hm : moc_findmap funcname params.length params
      (reg.funcs.getD f default).lmaps = .found pre.length := by
    rw [hlm]
    exact hfind
  have hact := moc_act_n_found reg mem funcname rettype params f pre.length
    mp hmp hf hm hg
  exact ⟨hfind, by rw [hact], by rw [hact]⟩

/-- C3, witness: function k holds the mapping equals(5) configured first
and the wildcard mapping configured second; the dispatch of parameter 5
passes both and selects the first, returning return(1). -/
theorem moc_c3_first_mapping_witness :
    moc_findmap "k" 1 [moc_i 5]
        ([] ++ (⟨[moc_eq (moc_i 5)], 0, [[moc_return (moc_i 1)]]⟩ : Mapping)
          :: [⟨[moc_any], 0, [[moc_return (moc_i 2)]]⟩])
      = .found 0
    ∧ (moc_act_n moc_regc3 moc_mem0 "k" moc_type_i [moc_i 5]).ret
      = moc_grpval [moc_return (moc_i 1)] :=
  ⟨(moc_c3_first_mapping moc_regc3 moc_mem0 "k" moc_type_i [moc_i 5] 0
      [] ⟨[moc_eq (moc_i 5)], 0, [[moc_return (moc_i 1)]]⟩
      [⟨[moc_any], 0, [[moc_return (moc_i 2)]]⟩]
      (by decide) (by decide) (by decide) (by decide) (by decide)).1,
   (moc_c3_first_mapping moc_regc3 moc_mem0 "k" moc_type_i [moc_i 5] 0
      [] ⟨[moc_eq (moc_i 5)], 0, [[moc_return (moc_i 1)]]⟩
      [⟨[moc_any], 0, [[moc_return (moc_i 2)]]⟩]
      (by decide) (by decide) (by decide) (by decide) (by decide)).2.1⟩

/-- C7: for every matching dispatch (selected mapping, responder checks
passing) whose executed group produces a value with a tag different from
the declared expected return tag, the unexpected-return-type error is
reported, the wrongly typed value is still returned (not the neutral
value), and the group rotation is still performed exactly as in the
error-free case. -/
theorem moc_c7_rettype_mismatch (reg : Registry) (mem : Mem)
    (funcname : String) (rettype : Nat) (params : List MocValue)
    (f j : Nat) (mp : Mapping)
    (hmp : (reg.funcs.getD f default).lmaps.getD j default = mp)
    (hf : moc_findidx (moc_funcmatch funcname params.length) reg.funcs
        = some f)
    (hm : moc_findmap funcname params.length params
        (reg.funcs.getD f default).lmaps = .found j)
    (hg : moc_chkgrp (mp.lresps.headD [])
        (1 + params.length + mp.nxmatchers) funcname params.length params
        = none)
    (hne : (moc_grpval (mp.lresps.headD [])).type ≠ rettype) :
    (moc_act_n reg mem funcname rettype params).errs
      = [⟨MOC_ERR_RETURTYPE, funcname, 0,
          (moc_grpval (mp.lresps.headD [])).type, rettype⟩]
    ∧ (moc_act_n reg mem funcname rettype params).ret
      = moc_grpval (mp.lresps.headD [])
    ∧ (moc_act_n reg mem funcname rettype params).reg
      = if decide (1 < mp.lresps.length) then
          moc_setlresps reg f j (moc_rot mp.lresps)
        else reg := by
  have hact := moc_act_n_found reg mem funcname rettype params f j mp
    hmp hf hm hg
  refine ⟨?_, by rw [hact], by rw [hact]⟩
  rw [hact]
  dsimp only
  rw [if_neg (by simpa using hne)]

/-- C7, witness: function w7 answers with the char value 1 while the
dispatch declares the int return tag: the unexpected-return-type error is
reported and the char value is still returned. -/
theorem moc_c7_rettype_mismatch_witness :
    (moc_act_n moc_regc7 moc_mem0 "w7" moc_type_i [moc_i 5]).errs
      = [⟨MOC_ERR_RETURTYPE, "w7", 0,
          (moc_grpval ([[moc_return (moc_c 1)]].headD [])).type, moc_type_i⟩]
    ∧ (moc_act_n moc_regc7 moc_mem0 "w7" moc_type_i [moc_i 5]).ret
      = moc_grpval ([[moc_return (moc_c 1)]].headD []) :=
  ⟨(moc_c7_rettype_mismatch moc_regc7 moc_mem0 "w7" moc_type_i [moc_i 5]
      0 0 ⟨[moc_eq (moc_i 5)], 0, [[moc_return (moc_c 1)]]⟩
      (by decide) (by decide) (by decide) (by decide) (by decide)).1,
   (moc_c7_rettype_mismatch moc_regc7 moc_mem0 "w7" moc_type_i [moc_i 5]
      0 0 ⟨[moc_eq (moc_i 5)], 0, [[moc_return (moc_c 1)]]⟩
      (by decide) (by decide) (by decide) (by decide) (by decide)).2.1⟩

/-- C10: for every matching dispatch whose selected head responder group
holds zero responders, the returned value is the empty value, whose tag
is the direct-void tag encoded as byte 0, and the unexpected-return-type
error is reported exactly when the declared expected return tag is not
the void tag. -/
theorem moc_c10_empty_group (reg : Registry) (mem : Mem)
    (funcname : String) (rettype : Nat) (params : List MocValue)
    (f j : Nat) (mp : Mapping)
    (hmp : (reg.funcs.getD f default).lmaps.getD j default = mp)
    (hf : moc_findidx (moc_funcmatch funcname params.length) reg.funcs
        = some f)
    (hm : moc_findmap funcname params.length params
        (reg.funcs.getD f default).lmaps = .found j)
    (hempty : mp.lresps.headD [] = []) :
    (moc_act_n reg mem funcname rettype params).ret = moc_emptyval
    ∧ moc_emptyval.type = moc_type_void
    ∧ (moc_act_n reg mem funcname rettype params).errs
      = (if rettype = moc_type_void then []
         else [⟨MOC_ERR_RETURTYPE, funcname, 0, 0, rettype⟩])
    ∧ ((moc_act_n reg mem funcname rettype params).errs ≠ []
        ↔ rettype ≠ moc_type_void) := by
  have hg : moc_chkgrp (mp.lresps.headD [])
      (1 + params.length + mp.nxmatchers) funcname params.length params
      = none := by rw [hempty]; rfl
  have hact := moc_act_n_found reg mem funcname rettype params f j mp
    hmp hf hm hg
  have herrs : (moc_act_n reg mem funcname rettype params).errs
      = (if rettype = moc_type_void then []
         else [⟨MOC_ERR_RETURTYPE, funcname, 0, 0, rettype⟩]) := by
    rw [hact]
    dsimp only
    rw [hempty]
    by_cases hr : rettype = moc_type_void
    · rw [if_pos hr, if_pos]
      simp [moc_grpval, moc_emptyval, hr, moc_type_void]
    · rw [if_neg hr, if_neg]
      · rfl
      · simp [moc_grpval, moc_emptyval, moc_type_void] at hr ⊢
        omega
  refine ⟨by rw [hact, hempty]; rfl, rfl, herrs, ?_⟩
  rw [herrs]
  by_cases hr : rettype = moc_type_void <;> simp [hr]

/-- C10, witness: function w10 is configured with an empty responder
group; a dispatch declaring the int return tag returns the empty value
and reports the unexpected-return-type error, while a dispatch declaring
the void return tag reports nothing. -/
theorem moc_c10_empty_group_witness :
    (moc_act_n moc_regc10 moc_mem0 "w10" moc_type_i [moc_i 5]).ret
      = moc_emptyval
    ∧ (moc_act_n moc_regc10 moc_mem0 "w10" moc_type_i [moc_i 5]).errs
      = (if moc_type_i = moc_type_void then []
         else [⟨MOC_ERR_RETURTYPE, "w10", 0, 0, moc_type_i⟩]) :=
  ⟨(moc_c10_empty_group moc_regc10 moc_mem0 "w10" moc_type_i [moc_i 5]
      0 0 ⟨[moc_eq (moc_i 5)], 0, [[]]⟩
      (by decide) (by decide) (by decide) (by decide)).1,
   (moc_c10_empty_group moc_regc10 moc_mem0 "w10" moc_type_i [moc_i 5]
      0 0 ⟨[moc_eq (moc_i 5)], 0, [[]]⟩
      (by decide) (by decide) (by decide) (by decide)).2.2.1⟩

/-- Helper: an extra matcher referencing an in-range parameter number j
(in either the type-checking or the no-check encoding of the options
byte) passes its checks at every extra position and is invoked on
parameter j - 1. -/
theorem moc_c6_eval_ok (pm : Matcher) (m : Nat) (funcname : String)
    (params : List MocValue) (j : Nat)
    (hopts : pm.mopts = j ∨ pm.mopts = 128 + j)
    (hj1 : 1 ≤ j) (hj126 : j ≤ 126) (hpos : params.length ≤ m)
    (hjn : j ≤ params.length)
    (hvalid : moc_isvalidtype pm.mval.type = true)
    (hoper : ¬(pm.mval.type = moc_type_fn ∧ moc_iscmpfn pm = true))
    (htype : pm.mopts = j →
      pm.mval.type = (params.getD (j - 1) moc_emptyval).type) :
    moc_evalmtc pm m funcname params.length params
      = .ok (moc_mtcapply pm.mtcfn (params.getD (j - 1) moc_emptyval)
          pm.mval) := by
  have hchk : moc_chkmtc pm (m + 1) funcname params.length params = none := by
    simp only [moc_chkmtc]
    split_ifs with h1 h2 h3 h4 h5 h6
    · exfalso
      rcases hopts with h | h <;> simp [h] at h1 <;> omega
    · exfalso
      rcases hopts with h | h <;> simp [h, MOC_MAXPARAMS] at h2 <;> omega
    · exfalso
      rw [hvalid] at h3
      simp at h3
    · exfalso
      simp [moc_type_fn] at h4 hoper
      have hfls := hoper h4.1
      rw [hfls] at h4
      simp at h4
    · exfalso
      rcases hopts with h | h <;> simp [h] at h5 <;> omega
    · exfalso
      rcases hopts with h | h
      · simp [h, MOC_MAXPARAMS] at h6
        exact h6.2 (by simpa using htype h)
      · simp [h, MOC_MAXPARAMS] at h6
        omega
    · rfl
  simp only [moc_evalmtc]
  rw [hchk]
  rcases hopts with h | h
  · simp only [h]
    rw [if_neg (by simp [MOC_MAXPARAMS]; omega)]
    rw [if_neg (by simp; omega), if_neg (by simp; omega)]
  · simp only [h]
    rw [if_neg (by simp [MOC_MAXPARAMS]; omega)]
    rw [if_neg (by simp; omega), if_pos (by simp; omega)]
    have harith : 128 + j - 128 - 1 = j - 1 := by omega
    rw [harith]

/-- Helper: an extra matcher referencing an out-of-range parameter number
j is rejected with the invalid-parameter-number error before its
operation function is invoked. -/
theorem moc_c6_eval_err (pm : Matcher) (m : Nat) (funcname : String)
    (params : List MocValue) (j : Nat)
    (hopts : pm.mopts = j ∨ pm.mopts = 128 + j)
    (hj1 : 1 ≤ j) (hj126 : j ≤ 126) (hpos : params.length ≤ m)
    (hout : params.length < j) :
    moc_evalmtc pm m funcname params.length params
      = .err ⟨MOC_ERR_INVNPARAM, funcname, m + 1, 0, 0⟩ := by
  have hchk : moc_chkmtc pm (m + 1) funcname params.length params
      = some ⟨MOC_ERR_INVNPARAM, funcname, m + 1, 0, 0⟩ := by
    simp only [moc_chkmtc]
    rw [if_neg ?hc1, if_pos ?hc2]
    case hc1 =>
      rcases hopts with h | h <;> simp [h] <;> omega
    case hc2 =>
      rcases hopts with h | h <;> simp [h, MOC_MAXPARAMS] <;> omega
  simp only [moc_evalmtc]
  rw [hchk]

/-- C6: for every dispatch of a call with n parameters, an extra matcher
built with reference index j (1 ≤ j ≤ n, in either options-byte
encoding), sitting at any position past the ordinary ones, has its
operation function invoked on params[j - 1] when its checks pass; and
when j exceeds n, the invalid-parameter-number error is reported instead
of any invocation. -/
theorem moc_c6_extra_matcher (pm : Matcher) (m : Nat) (funcname : String)
    (params : List MocValue) (j : Nat)
    (hopts : pm.mopts = j ∨ pm.mopts = 128 + j)
    (hj1 : 1 ≤ j) (hj126 : j ≤ 126) (hpos : params.length ≤ m) :
    (j ≤ params.length →
      moc_isvalidtype pm.mval.type = true →
      ¬(pm.mval.type = moc_type_fn ∧ moc_iscmpfn pm = true) →
      (pm.mopts = j →
        pm.mval.type = (params.getD (j - 1) moc_emptyval).type) →
      moc_evalmtc pm m funcname params.length params
        = .ok (moc_mtcapply pm.mtcfn (params.getD (j - 1) moc_emptyval)
            pm.mval))
    ∧ (params.length < j →
      moc_evalmtc pm m funcname params.length params
        = .err ⟨MOC_ERR_INVNPARAM, funcname, m + 1, 0, 0⟩) :=
  ⟨fun hjn hvalid hoper htype =>
    moc_c6_eval_ok pm m funcname params j hopts hj1 hj126 hpos hjn
      hvalid hoper htype,
   fun hout =>
    moc_c6_eval_err pm m funcname params j hopts hj1 hj126 hpos hout⟩

/-- C6, witness: for a call with two parameters, a typed extra matcher
equals referencing parameter 1 placed at extra position 3 is invoked on
the first parameter, and an extra matcher referencing parameter 5 is
rejected with the invalid-parameter-number error. -/
theorem moc_c6_extra_matcher_witness :
    moc_evalmtc (moc_xparam 1 (.cmpop .eq) (moc_i 10)) 2 "x"
        [moc_i 10, moc_c 3].length [moc_i 10, moc_c 3]
      = .ok (moc_mtcapply (moc_xparam 1 (.cmpop .eq) (moc_i 10)).mtcfn
          ([moc_i 10, moc_c 3].getD 0 moc_emptyval)
          (moc_xparam 1 (.cmpop .eq) (moc_i 10)).mval)
    ∧ moc_evalmtc (moc_xparam 5 (.cmpop .eq) (moc_i 10)) 2 "x"
        [moc_i 10, moc_c 3].length [moc_i 10, moc_c 3]
      = .err ⟨MOC_ERR_INVNPARAM, "x", 3, 0, 0⟩ :=
  ⟨(moc_c6_extra_matcher (moc_xparam 1 (.cmpop .eq) (moc_i 10)) 2 "x"
      [moc_i 10, moc_c 3] 1 (Or.inl (by decide)) (by decide) (by decide)
      (by decide)).1 (by decide) (by decide) (by decide)
      (fun _ => by decide),
   (moc_c6_extra_matcher (moc_xparam 5 (.cmpop .eq) (moc_i 10)) 2 "x"
      [moc_i 10, moc_c 3] 5 (Or.inl (by decide)) (by decide) (by decide)
      (by decide)).2 (by decide)⟩

/-- Helper: the commit step of a configure call either reports one of the
four remaining capacity errors or the invalid-type error while leaving
the registry untouched, or commits and reports nothing. -/
theorem moc_given_commit_atomic (reg : Registry) (funcname : String)
    (f : Nat) (isnewfunc : Bool) (mnode : Option Nat)
    (matchers xmatchers : List Matcher) (responders : List Responder) :
    ((moc_given_commit reg funcname f isnewfunc mnode matchers xmatchers
          responders).2 ≠ [] →
      (moc_given_commit reg funcname f isnewfunc mnode matchers xmatchers
          responders).1 = reg)
    ∧ ∀ e ∈ (moc_given_commit reg funcname f isnewfunc mnode matchers
          xmatchers responders).2,
        e.errnum = MOC_ERR_NFUNLIMIT ∨ e.errnum = MOC_ERR_NMAPLIMIT
        ∨ e.errnum = MOC_ERR_NMTCLIMIT ∨ e.errnum = MOC_ERR_NRSPLIMIT
        ∨ e.errnum = MOC_ERR_NNODLIMIT ∨ e.errnum = MOC_ERR_INVALTYPE := by
  rcases hinv : moc_firstinval matchers xmatchers responders with _ | ⟨pos, ty⟩
  all_goals cases mnode
  all_goals cases isnewfunc
  all_goals simp only [moc_given_commit, hinv]
  all_goals split_ifs
  all_goals
    first
      | exact ⟨fun _ => rfl, by simp⟩
      | exact ⟨fun hne => absurd rfl hne, by simp⟩

/-- C8: for every configure call that reports an error — any of the five
capacity exhaustions, each with its own distinct error code 1..5, or the
invalid stored-value type, code 8 — the registry (function entries,
mapping and responder-group lists, and all element counts) is exactly as
before the call, and every reported error carries one of those codes. -/
theorem moc_c8_config_atomic (reg : Registry) (funcname : String)
    (matchers xmatchers : List Matcher) (responders : List Responder)
    (herr : (moc_given_nnn reg funcname matchers xmatchers responders).2
      ≠ []) :
    (moc_given_nnn reg funcname matchers xmatchers responders).1 = reg
    ∧ ∀ e ∈ (moc_given_nnn reg funcname matchers xmatchers responders).2,
        e.errnum = MOC_ERR_NFUNLIMIT ∨ e.errnum = MOC_ERR_NMAPLIMIT
        ∨ e.errnum = MOC_ERR_NMTCLIMIT ∨ e.errnum = MOC_ERR_NRSPLIMIT
        ∨ e.errnum = MOC_ERR_NNODLIMIT ∨ e.errnum = MOC_ERR_INVALTYPE := by
  simp only [moc_given_nnn] at herr ⊢
  cases hfind : moc_findidx (moc_funcmatch funcname matchers.length)
      reg.funcs with
  | some f =>
    rw [hfind] at herr
    dsimp only at herr ⊢
    obtain ⟨ha, hb⟩ := moc_given_commit_atomic reg funcname f false
      (moc_findidx (moc_mapmatch (matchers ++ xmatchers) xmatchers.length
          (matchers.length + xmatchers.length))
        (reg.funcs.getD f default).lmaps) matchers xmatchers responders
    exact ⟨ha herr, hb⟩
  | none =>
    rw [hfind] at herr
    dsimp only at herr ⊢
    split_ifs with h
    · exact ⟨rfl, by simp⟩
    · rw [if_neg h] at herr
      obtain ⟨ha, hb⟩ := moc_given_commit_atomic reg funcname
        reg.funcs.length true none matchers xmatchers responders
      exact ⟨ha herr, hb⟩

/-- C8, witness: a configure call on a registry with zero function
capacity reports the insufficient-memory-for-functions error and leaves
the registry unchanged. -/
theorem moc_c8_config_atomic_witness :
    (moc_given_nnn (moc_reg0 0) "z" [] [] []).1 = moc_reg0 0
    ∧ ∀ e ∈ (moc_given_nnn (moc_reg0 0) "z" [] [] []).2,
        e.errnum = MOC_ERR_NFUNLIMIT ∨ e.errnum = MOC_ERR_NMAPLIMIT
        ∨ e.errnum = MOC_ERR_NMTCLIMIT ∨ e.errnum = MOC_ERR_NRSPLIMIT
        ∨ e.errnum = MOC_ERR_NNODLIMIT ∨ e.errnum = MOC_ERR_INVALTYPE :=
  moc_c8_config_atomic (moc_reg0 0) "z" [] [] [] (by decide)

/-- Helper: the group-result fold returns the result value of the last
responder, from any starting value. -/
theorem moc_grpval_last_aux (grp : List Responder) :
    ∀ (v : MocValue) (r : Responder), grp.getLast? = some r →
      grp.foldl (fun _ r => moc_rspval r) v = moc_rspval r := by
  induction grp with
  | nil => intro v r h; cases h
  | cons a rest ih =>
    intro v r h
    cases rest with
    | nil =>
      simp at h
      rw [List.foldl_cons, List.foldl_nil, h]
    | cons b rest2 =>
      rw [List.foldl_cons]
      exact ih (moc_rspval a) r (by simpa using h)

/-- C9: the predefined responder moc_count over a stored value v: when v
has the mutable-pointer indirection (pointer type 1) and one of the
eleven numeric kinds (standard types 1..11, char through unsigned long),
executing it increments the integer primitive at the stored address by
one; for every other stored value it leaves memory untouched; and in
every case its result is the empty void-tagged value, so a responder
group whose last responder is moc_count yields the neutral value. -/
theorem moc_c9_count (v : MocValue) (mem : Mem) (grp : List Responder) :
    (v.type % 4 = 1 ∧ 1 ≤ v.type / 4 ∧ v.type / 4 ≤ 11 →
      moc_rspapply (moc_count v) mem
        = (moc_emptyval,
           fun x => if x = moc_get_p v then mem x + 1 else mem x))
    ∧ (¬(v.type % 4 = 1 ∧ 1 ≤ v.type / 4 ∧ v.type / 4 ≤ 11) →
      moc_rspapply (moc_count v) mem = (moc_emptyval, mem))
    ∧ (grp.getLast? = some (moc_count v) →
      moc_grpval grp = moc_emptyval) := by
  have hstep : moc_rspapply (moc_count v) mem
      = (moc_emptyval, moc_rspinc_mem v mem) := rfl
  refine ⟨?_, ?_, ?_⟩
  · intro hcond
    rw [hstep]
    simp only [moc_rspinc_mem]
    rw [if_pos (by simp [hcond.1]), if_pos (by simp [hcond.2.1, hcond.2.2])]
  · intro hcond
    rw [hstep]
    simp only [moc_rspinc_mem]
    by_cases h1 : v.type % 4 = 1
    · rw [if_pos (by simp [h1]), if_neg ?_]
      simp only [Bool.and_eq_true, decide_eq_true_eq, not_and]
      intro hb hc
      exact hcond ⟨h1, hb, hc⟩
    · rw [if_neg (by simp [h1])]
  · intro hlast
    unfold moc_grpval
    rw [moc_grpval_last_aux grp moc_emptyval (moc_count v) hlast]
    rfl

/-- C9, witness: counting through a mutable int pointer at address 7
increments the cell at 7, counting through a const int pointer writes
nothing, and the result of a group ending in moc_count is the empty
value. -/
theorem moc_c9_count_witness :
    moc_rspapply (moc_count (moc_p_i 7)) moc_mem0
      = (moc_emptyval,
         fun x => if x = moc_get_p (moc_p_i 7) then moc_mem0 x + 1
                  else moc_mem0 x)
    ∧ moc_rspapply (moc_count (moc_cp_i 7)) moc_mem0
      = (moc_emptyval, moc_mem0)
    ∧ moc_grpval [moc_count (moc_p_i 7)] = moc_emptyval :=
  ⟨(moc_c9_count (moc_p_i 7) moc_mem0 []).1 (by decide),
   (moc_c9_count (moc_cp_i 7) moc_mem0 []).2.1 (by decide),
   (moc_c9_count (moc_p_i 7) moc_mem0 [moc_count (moc_p_i 7)]).2.2
     (by decide)⟩
